import Mathlib

/-!
Verification of the lending-library backend (models, repositories, services,
dialog and pagination handlers, in-memory cache) of the Actividad-Biblioteca
repository.  Python code is shallowly embedded: objects become structures,
in-place mutation becomes explicit state passing, `datetime.now()` becomes an
explicit `now : Nat` timestamp parameter (seconds), and generated identifiers
(`IdGenerator.generate_unique_id` / `generate_loan_id`) become explicit
`String` parameters.  `None`-able Python strings are modelled as
`Option String`, with Python truthiness (`None` and `""` are falsy) made
explicit below.
-/

/-- Python truthiness of an optional string: `None` and the empty string are
falsy, every other string is truthy. -/
def pyTruthy (o : Option String) : Bool :=
  o.getD "" ≠ ""

/-- The string carried by an optional Python string (`None` behaves as `""`
in every use the embedded code makes of it). -/
def pyStr (o : Option String) : String :=
  o.getD ""

/-- Python `a or b` on optional strings: yields `a` when truthy, else `b`. -/
def pyOr (a b : Option String) : Option String :=
  if pyTruthy a then a else b

/-- Whether the first character list starts the second. -/
def charsLead : List Char → List Char → Bool
  | [], _ => true
  | _ :: _, [] => false
  | a :: as, b :: bs => a == b && charsLead as bs

/-- Whether the first character list occurs contiguously in the second. -/
def charsInside (needle : List Char) : List Char → Bool
  | [] => charsLead needle []
  | b :: bs => charsLead needle (b :: bs) || charsInside needle bs

/-- Python substring test `a in b`. -/
def pyIn (a b : String) : Bool :=
  charsInside a.toList b.toList

/-- Lower-casing of one character, covering the ASCII letters and the
accented Spanish capitals occurring in the embedded vocabulary (Python
`str.lower()`). -/
def pyLowerChar : Char → Char
  | 'A' => 'a' | 'B' => 'b' | 'C' => 'c' | 'D' => 'd' | 'E' => 'e' | 'F' => 'f'
  | 'G' => 'g' | 'H' => 'h' | 'I' => 'i' | 'J' => 'j' | 'K' => 'k' | 'L' => 'l'
  | 'M' => 'm' | 'N' => 'n' | 'O' => 'o' | 'P' => 'p' | 'Q' => 'q' | 'R' => 'r'
  | 'S' => 's' | 'T' => 't' | 'U' => 'u' | 'V' => 'v' | 'W' => 'w' | 'X' => 'x'
  | 'Y' => 'y' | 'Z' => 'z'
  | 'Á' => 'á' | 'É' => 'é' | 'Í' => 'í' | 'Ó' => 'ó' | 'Ú' => 'ú'
  | 'Ñ' => 'ñ' | 'Ü' => 'ü'
  | c => c

/-- Python `str.lower()`. -/
def String.pyLower (s : String) : String :=
  ⟨s.data.map pyLowerChar⟩

/-- Python `str.strip()`: drop whitespace from both ends. -/
def String.pyStrip (s : String) : String :=
  ⟨((s.data.dropWhile Char.isWhitespace).reverse.dropWhile Char.isWhitespace).reverse⟩

/-- Python `str.startswith(pre)`. -/
def String.pyStart (s pre : String) : Bool :=
  charsLead pre.data s.data

/-- Python slicing `s[n:]` (by characters). -/
def String.pyDrop (s : String) (n : Nat) : String :=
  ⟨s.data.drop n⟩

/-- `models/book.py`: `BookStatus` enum. -/
inductive BookStatus where
  | disponible
  | prestado
deriving DecidableEq

/-- `models/loan.py`: `LoanStatus` enum. -/
inductive LoanStatus where
  | activo
  | devuelto
  | vencido
deriving DecidableEq

/-- `models/book.py`: the `Book` dataclass.  `fecha_agregado` is a timestamp
in seconds. -/
structure Book where
  id : String
  titulo : String
  autor : String := "Desconocido"
  tipo : String := "Sin categoría"
  fecha_agregado : Nat := 0
  estado : BookStatus := BookStatus.disponible
  total_prestamos : Nat := 0
deriving DecidableEq

/-- `Book.prestar`: marks the book as loaned and bumps the loan counter;
when the book is already loaned the Python method returns `False` and leaves
the object unchanged (callers in the services ignore the returned flag). -/
def Book.prestar (b : Book) : Book :=
  if b.estado = BookStatus.prestado then b
  else { b with estado := BookStatus.prestado, total_prestamos := b.total_prestamos + 1 }

/-- `Book.devolver`: marks the book as available; a no-op when it already is
(the Python method then returns `False`, which callers ignore). -/
def Book.devolver (b : Book) : Book :=
  if b.estado = BookStatus.disponible then b
  else { b with estado := BookStatus.disponible }

/-- `Book.esta_disponible`. -/
def Book.esta_disponible (b : Book) : Bool :=
  b.estado = BookStatus.disponible

/-- `Book.coincide_titulo`: case-insensitive two-way containment match. -/
def Book.coincide_titulo (b : Book) (busqueda : String) : Bool :=
  if busqueda = "" then false
  else
    let bq := busqueda.pyLower.pyStrip
    let t := b.titulo.pyLower
    pyIn bq t || pyIn t bq

/-- `Book.coincide_autor`. -/
def Book.coincide_autor (b : Book) (busqueda : String) : Bool :=
  if busqueda = "" then false
  else
    let bq := busqueda.pyLower.pyStrip
    let a := b.autor.pyLower
    pyIn bq a || pyIn a bq

/-- `models/loan.py`: the `Loan` dataclass.  Timestamps are seconds;
`dias_prestamo` counts days as in the source. -/
structure Loan where
  id : String
  libro_id : String
  titulo : String
  persona : String := "un amigo"
  fecha_prestamo : Nat := 0
  fecha_limite : Nat := 0
  fecha_devolucion : Option Nat := none
  estado : LoanStatus := LoanStatus.activo
  dias_prestamo : Nat := 7
deriving DecidableEq

/-- `Loan.devolver`: marks the loan returned at time `now`; a no-op when
already returned. -/
def Loan.devolver (l : Loan) (now : Nat) : Loan :=
  if l.estado = LoanStatus.devuelto then l
  else { l with estado := LoanStatus.devuelto, fecha_devolucion := some now }

/-- `Loan.esta_activo`. -/
def Loan.esta_activo (l : Loan) : Bool :=
  l.estado = LoanStatus.activo

/-- `Loan.esta_vencido`: an active loan whose due date has passed. -/
def Loan.esta_vencido (l : Loan) (now : Nat) : Bool :=
  if l.estado ≠ LoanStatus.activo then false
  else decide (now > l.fecha_limite)

/-- `Loan.fue_devuelto_a_tiempo`. -/
def Loan.fue_devuelto_a_tiempo (l : Loan) : Bool :=
  match l.estado, l.fecha_devolucion with
  | LoanStatus.devuelto, some d => decide (d ≤ l.fecha_limite)
  | _, _ => false

/-- `Loan.actualizar_estado`: an active loan past its due date is re-marked
`VENCIDO` at read time. -/
def Loan.actualizar_estado (l : Loan) (now : Nat) : Loan :=
  if l.estado = LoanStatus.activo ∧ l.esta_vencido now then
    { l with estado := LoanStatus.vencido }
  else l

/-- `Loan.coincide_titulo`. -/
def Loan.coincide_titulo (l : Loan) (busqueda : String) : Bool :=
  if busqueda = "" then false
  else
    let bq := busqueda.pyLower.pyStrip
    let t := l.titulo.pyLower
    pyIn bq t || pyIn t bq

/-- The `estadisticas` sub-record of the per-user aggregate. -/
structure Estadisticas where
  total_libros : Nat := 0
  total_prestamos : Nat := 0
  total_devoluciones : Nat := 0
  prestamos_activos : Nat := 0
deriving DecidableEq

/-- The per-user aggregate record (`libros_disponibles`, `prestamos_activos`,
`historial_prestamos`, `estadisticas`) that the repositories load, mutate and
store. -/
structure UserData where
  libros_disponibles : List Book := []
  prestamos_activos : List Loan := []
  historial_prestamos : List Loan := []
  estadisticas : Estadisticas := {}
deriving DecidableEq

/-- The fresh aggregate for a new user. -/
def UserData.initial : UserData := {}

/-! ## Book repository (`repositories/book_repository.py`)

The repository's private `_get_user_data` / `_save_user_data` are stubs in the
source ("En implementación real, usaría el data_adapter"); following the
spec's read-modify-write description they are modelled as explicit state
passing: each operation takes the user's aggregate and returns the updated
aggregate.  The optional cache (`cache_service=None` configuration, as used by
`configure_for_testing`) is modelled separately further below for the cache
claims. -/

/-- `BookRepository.find_all` (data content; cache layer modelled apart). -/
def BookRepository.find_all (ud : UserData) : List Book :=
  ud.libros_disponibles

/-- `BookRepository.find_by_id`: first book with the given id. -/
def BookRepository.find_by_id (ud : UserData) (book_id : String) : Option Book :=
  (BookRepository.find_all ud).find? (fun b => b.id == book_id)

/-- `BookRepository.find_by_title`: all books matching the search term. -/
def BookRepository.find_by_title (ud : UserData) (title : String) : List Book :=
  (BookRepository.find_all ud).filter (fun b => b.coincide_titulo title)

/-- `BookRepository.find_by_author`. -/
def BookRepository.find_by_author (ud : UserData) (author : String) : List Book :=
  (BookRepository.find_all ud).filter (fun b => b.coincide_autor author)

/-- `BookRepository.exists_title`: exact case-insensitive trimmed title
match. -/
def BookRepository.exists_title (ud : UserData) (title : String) : Bool :=
  let normalized := title.pyLower.pyStrip
  ud.libros_disponibles.any (fun b => b.titulo.pyLower.pyStrip == normalized)

/-- The in-place update of `libros_disponibles` performed by
`BookRepository.save`: replace the first book with the same id, else
append. -/
def BookRepository.saveBooks : List Book → Book → List Book
  | [], b => [b]
  | x :: xs, b => if x.id = b.id then b :: xs else x :: BookRepository.saveBooks xs b

/-- `BookRepository.save`: create-or-update a book and refresh
`estadisticas.total_libros`. -/
def BookRepository.save (ud : UserData) (book : Book) : UserData :=
  let books := BookRepository.saveBooks ud.libros_disponibles book
  { ud with
    libros_disponibles := books
    estadisticas := { ud.estadisticas with total_libros := books.length } }

/-- `BookRepository.delete`: remove every book with the given id; returns
whether anything was removed together with the updated aggregate. -/
def BookRepository.delete (ud : UserData) (book_id : String) : Bool × UserData :=
  let books := ud.libros_disponibles.filter (fun b => b.id != book_id)
  if books.length < ud.libros_disponibles.length then
    (true,
     { ud with
       libros_disponibles := books
       estadisticas := { ud.estadisticas with total_libros := books.length } })
  else (false, ud)

/-! ## Loan repository (`repositories/loan_repository.py`) -/

/-- `LoanRepository.find_active_loans`: loads `prestamos_activos` and
re-derives each loan's state at read time (`actualizar_estado`); the stored
list itself is not written back. -/
def LoanRepository.find_active_loans (now : Nat) (ud : UserData) : List Loan :=
  ud.prestamos_activos.map (fun l => l.actualizar_estado now)

/-- `LoanRepository.find_by_book_id`: first active-list loan for the book. -/
def LoanRepository.find_by_book_id (now : Nat) (ud : UserData) (book_id : String) :
    Option Loan :=
  (LoanRepository.find_active_loans now ud).find? (fun l => l.libro_id == book_id)

/-- `LoanRepository.find_by_title`: first active-list loan whose title
matches. -/
def LoanRepository.find_by_title (now : Nat) (ud : UserData) (title : String) :
    Option Loan :=
  (LoanRepository.find_active_loans now ud).find? (fun l => l.coincide_titulo title)

/-- The in-place update of `prestamos_activos` performed by
`LoanRepository.save_loan` for an active loan: replace the first loan with the
same id, else append. -/
def LoanRepository.saveLoans : List Loan → Loan → List Loan
  | [], l => [l]
  | x :: xs, l => if x.id = l.id then l :: xs else x :: LoanRepository.saveLoans xs l

/-- `LoanRepository._move_to_history`: drop the loan from the active list and
append it to the history. -/
def LoanRepository.move_to_history (ud : UserData) (loan : Loan) : UserData :=
  { ud with
    prestamos_activos := ud.prestamos_activos.filter (fun l => l.id != loan.id)
    historial_prestamos := ud.historial_prestamos ++ [loan] }

/-- `LoanRepository._update_loan_statistics`. -/
def LoanRepository.update_loan_statistics (ud : UserData) : UserData :=
  let active := ud.prestamos_activos.length
  let hist := ud.historial_prestamos.length
  let stats := ud.estadisticas
  let total :=
    if active > 0 then max stats.total_prestamos (active + hist)
    else stats.total_prestamos
  { ud with
    estadisticas := { stats with prestamos_activos := active, total_prestamos := total } }

/-- `LoanRepository.save_loan`: store an active loan in `prestamos_activos`
(or move a non-active one to the history) and refresh the statistics. -/
def LoanRepository.save_loan (ud : UserData) (loan : Loan) : UserData :=
  let ud' :=
    if loan.esta_activo then
      { ud with prestamos_activos := LoanRepository.saveLoans ud.prestamos_activos loan }
    else LoanRepository.move_to_history ud loan
  LoanRepository.update_loan_statistics ud'

/-- Removal of the first active-list loan with a given id, returning it with
the remaining list (the index search plus `pop` in
`LoanRepository.complete_loan`). -/
def LoanRepository.extractLoan : List Loan → String → Option (Loan × List Loan)
  | [], _ => none
  | l :: ls, lid =>
    if l.id = lid then some (l, ls)
    else
      match LoanRepository.extractLoan ls lid with
      | some (x, rest) => some (x, l :: rest)
      | none => none

/-- `LoanRepository.complete_loan`: mark the stored loan returned at `now`,
move it from the active list to the history, and bump
`total_devoluciones`. -/
def LoanRepository.complete_loan (now : Nat) (ud : UserData) (loan_id : String) :
    Bool × UserData :=
  match LoanRepository.extractLoan ud.prestamos_activos loan_id with
  | none => (false, ud)
  | some (loan, rest) =>
    let returned := loan.devolver now
    (true,
     { ud with
       prestamos_activos := rest
       historial_prestamos := ud.historial_prestamos ++ [returned]
       estadisticas :=
         { ud.estadisticas with
           total_devoluciones := ud.estadisticas.total_devoluciones + 1 } })

/-! ## Domain services (`services/book_service.py`, `services/loan_service.py`)

Service operations return the Python result tuple `(éxito, mensaje, entidad)`
together with the updated aggregate.  Each human-readable message format
string of the source becomes one constructor of `Msg`, keeping the message
payloads. -/

/-- The messages produced by the services, one constructor per format string
in the source. -/
inductive Msg where
  | tituloRequerido
  | yaExiste (titulo : String)
  | libroAgregado (titulo : String)
  | variosLibros (titulos : List String)
  | noEncontreLibro (ref : String)
  | yaPrestado (titulo persona : String)
  | limiteAlcanzado (maxPrestamos : Nat)
  | prestamoRegistrado (titulo persona : String)
  | noPrestamoActivo (ref : String)
  | devolucionRegistrada (titulo : String) (aTiempo : Bool)
  | libroNoEncontrado
  | noSePuedeEliminarPrestado (titulo persona : String)
  | libroEliminado (titulo : String)
  | errorAlEliminar
deriving DecidableEq

/-- Service result tuple `(éxito, mensaje, entidad)`. -/
abbrev SvcResult (α : Type) := Bool × Msg × Option α

/-- `LoanService.__init__`: `self._default_loan_days = 7`. -/
def LoanService.default_loan_days : Nat := 7

/-- `LoanService.__init__`: `self._max_loans_per_user = 10`. -/
def LoanService.max_loans_per_user : Nat := 10

/-- Seconds per day, for the `timedelta(days=...)` arithmetic. -/
def secondsPerDay : Nat := 86400

/-- `BookService.add_book`.  `newId` stands for
`IdGenerator.generate_unique_id()`, `now` for `datetime.now()`; a `None`
title is modelled as `""` (both fail the same emptiness check). -/
def BookService.add_book (ud : UserData) (newId : String) (now : Nat)
    (titulo autor tipo : String) : SvcResult Book × UserData :=
  if titulo.pyStrip = "" then ((false, Msg.tituloRequerido, none), ud)
  else
    let titulo := titulo.pyStrip
    if BookRepository.exists_title ud titulo then
      ((false, Msg.yaExiste titulo, none), ud)
    else
      let autor := if autor.pyStrip = "" then "Desconocido" else autor.pyStrip
      let tipo := if tipo.pyStrip = "" then "Sin categoría" else tipo.pyStrip
      let new_book : Book :=
        { id := newId, titulo := titulo, autor := autor, tipo := tipo
          fecha_agregado := now, estado := BookStatus.disponible, total_prestamos := 0 }
      ((true, Msg.libroAgregado titulo, some new_book), BookRepository.save ud new_book)

/-- `BookService.get_all_books`: all books with their states re-synchronized
against the current active-loan set. -/
def BookService.get_all_books (now : Nat) (ud : UserData) : List Book :=
  let books := BookRepository.find_all ud
  let active_loans := LoanRepository.find_active_loans now ud
  books.map (fun b =>
    if active_loans.any (fun l => l.libro_id == b.id) then
      { b with estado := BookStatus.prestado }
    else { b with estado := BookStatus.disponible })

/-- `BookService._sync_book_states`. -/
def BookService.sync_book_states (now : Nat) (ud : UserData) (books : List Book) :
    List Book :=
  if books.isEmpty then books
  else
    let active_loans := LoanRepository.find_active_loans now ud
    books.map (fun b =>
      if active_loans.any (fun l => l.libro_id == b.id) then
        { b with estado := BookStatus.prestado }
      else { b with estado := BookStatus.disponible })

/-- `BookService.search_books_by_title`. -/
def BookService.search_books_by_title (now : Nat) (ud : UserData)
    (search_term : String) : List Book :=
  if search_term.pyStrip = "" then []
  else
    BookService.sync_book_states now ud
      (BookRepository.find_by_title ud search_term.pyStrip)

/-- `BookService.search_books_by_author`. -/
def BookService.search_books_by_author (now : Nat) (ud : UserData)
    (search_term : String) : List Book :=
  if search_term.pyStrip = "" then []
  else
    BookService.sync_book_states now ud
      (BookRepository.find_by_author ud search_term.pyStrip)

/-- `BookService.get_available_books`. -/
def BookService.get_available_books (now : Nat) (ud : UserData) : List Book :=
  (BookService.get_all_books now ud).filter (fun b => b.esta_disponible)

/-- `BookService.get_loaned_books`. -/
def BookService.get_loaned_books (now : Nat) (ud : UserData) : List Book :=
  (BookService.get_all_books now ud).filter (fun b => !b.esta_disponible)

/-- `BookService.delete_book`: resolve by id, else by first title match; block
the deletion when any active-list loan references the book. -/
def BookService.delete_book (now : Nat) (ud : UserData)
    (book_id title : Option String) : SvcResult Book × UserData :=
  let book : Option Book :=
    if pyTruthy book_id then BookRepository.find_by_id ud (pyStr book_id)
    else if pyTruthy title then
      (BookRepository.find_by_title ud (pyStr title).pyStrip).head?
    else none
  match book with
  | none => ((false, Msg.libroNoEncontrado, none), ud)
  | some book =>
    match LoanRepository.find_by_book_id now ud book.id with
    | some active_loan =>
      ((false, Msg.noSePuedeEliminarPrestado book.titulo active_loan.persona, some book), ud)
    | none =>
      if (BookRepository.delete ud book.id).1 then
        ((true, Msg.libroEliminado book.titulo, some book),
         (BookRepository.delete ud book.id).2)
      else
        ((false, Msg.errorAlEliminar, some book), (BookRepository.delete ud book.id).2)

/-- The book-resolution step at the top of `LoanService.create_loan`. -/
inductive BookLookup where
  | notFound
  | one (b : Book)
  | many (titulos : List String)
deriving DecidableEq

/-- Book resolution in `LoanService.create_loan`: by id when given, else by
title, flagging multiple title matches. -/
def LoanService.lookupBook (ud : UserData) (book_title book_id : Option String) :
    BookLookup :=
  if pyTruthy book_id then
    match BookRepository.find_by_id ud (pyStr book_id) with
    | some b => BookLookup.one b
    | none => BookLookup.notFound
  else if pyTruthy book_title then
    match BookRepository.find_by_title ud (pyStr book_title).pyStrip with
    | [] => BookLookup.notFound
    | [b] => BookLookup.one b
    | bs => BookLookup.many ((bs.take 3).map (fun b => b.titulo))
  else BookLookup.notFound

/-- The tail of `LoanService.create_loan` once a unique book has been resolved
and the already-loaned guard has passed: loan-limit check, loan construction
(`dueAt = now + days`), `book.prestar()`, and the two repository writes. -/
def LoanService.create_loan_body (now : Nat) (ud : UserData) (newLoanId : String)
    (book : Book) (person_name : Option String) (loan_days : Option Nat) :
    SvcResult Loan × UserData :=
  let active_loans := LoanRepository.find_active_loans now ud
  if active_loans.length ≥ LoanService.max_loans_per_user then
    ((false, Msg.limiteAlcanzado LoanService.max_loans_per_user, none), ud)
  else
    let days :=
      match loan_days with
      | some d => if d = 0 then LoanService.default_loan_days else d
      | none => LoanService.default_loan_days
    let person :=
      if (pyStr person_name).pyStrip = "" then "un amigo" else (pyStr person_name).pyStrip
    let loan : Loan :=
      { id := newLoanId, libro_id := book.id, titulo := book.titulo, persona := person
        fecha_prestamo := now, fecha_limite := now + days * secondsPerDay
        fecha_devolucion := none, estado := LoanStatus.activo, dias_prestamo := days }
    let book' := book.prestar
    let ud₁ := LoanRepository.save_loan ud loan
    let ud₂ := BookRepository.save ud₁ book'
    ((true, Msg.prestamoRegistrado book.titulo person, some loan), ud₂)

/-- `LoanService.create_loan`.  `newLoanId` stands for
`IdGenerator.generate_loan_id()`. -/
def LoanService.create_loan (now : Nat) (ud : UserData) (newLoanId : String)
    (book_title book_id person_name : Option String) (loan_days : Option Nat) :
    SvcResult Loan × UserData :=
  match LoanService.lookupBook ud book_title book_id with
  | BookLookup.many titulos => ((false, Msg.variosLibros titulos, none), ud)
  | BookLookup.notFound =>
    let ref := if pyTruthy book_title then pyStr book_title else pyStr book_id
    ((false, Msg.noEncontreLibro ref, none), ud)
  | BookLookup.one book =>
    match LoanRepository.find_by_book_id now ud book.id with
    | some existing_loan =>
      if existing_loan.esta_activo then
        ((false, Msg.yaPrestado book.titulo existing_loan.persona, some existing_loan), ud)
      else LoanService.create_loan_body now ud newLoanId book person_name loan_days
    | none => LoanService.create_loan_body now ud newLoanId book person_name loan_days

/-- `LoanService.return_loan`: resolve the active loan by id or by title, mark
it returned, flip the book back to available, and complete the loan in the
repository. -/
def LoanService.return_loan (now : Nat) (ud : UserData)
    (book_title loan_id : Option String) : SvcResult Loan × UserData :=
  let loan : Option Loan :=
    if pyTruthy loan_id then
      (LoanRepository.find_active_loans now ud).find? (fun l => l.id == pyStr loan_id)
    else if pyTruthy book_title then
      LoanRepository.find_by_title now ud (pyStr book_title).pyStrip
    else none
  let ref := if pyTruthy book_title then pyStr book_title else pyStr loan_id
  match loan with
  | none => ((false, Msg.noPrestamoActivo ref, none), ud)
  | some loan =>
    if !loan.esta_activo then ((false, Msg.noPrestamoActivo ref, none), ud)
    else
      let loan' := loan.devolver now
      let ud₁ :=
        match BookRepository.find_by_id ud loan'.libro_id with
        | some book => BookRepository.save ud (book.devolver)
        | none => ud
      let (_, ud₂) := LoanRepository.complete_loan now ud₁ loan'.id
      let on_time := loan'.fue_devuelto_a_tiempo
      ((true, Msg.devolucionRegistrada loan'.titulo on_time, some loan'), ud₂)

/-- `LoanService.get_active_loans`: active-list loans with re-derived
states. -/
def LoanService.get_active_loans (now : Nat) (ud : UserData) : List Loan :=
  (LoanRepository.find_active_loans now ud).map (fun l => l.actualizar_estado now)

/-! ## Dialog handlers (`handlers/agregar_handler.py`,
`handlers/continuar_agregar_handler.py`)

A turn carries an intent name and its slots (a slot may be present with no
value).  Session attributes are the fixed set of keys the handlers use,
modelled as a structure whose defaults are the values `sa.get(...)` yields for
a missing key; clearing the session (`session_attributes = {}`) resets every
field. -/

/-- An inbound intent request: intent name plus slot values in slot order. -/
structure IntentRequest where
  name : String
  slots : List (String × Option String) := []

/-- `ask_utils.get_slot_value` via the `_slot` helper: the value of the named
slot, `none` when the slot is absent or empty. -/
def getSlotValue (req : IntentRequest) (slotName : String) : Option String :=
  match req.slots.find? (fun p => p.fst == slotName) with
  | some p => p.snd
  | none => none

/-- The conversation-scoped session attributes used by the handlers, with
each field's default being what `sa.get` returns for a missing key. -/
structure Session where
  agregando_libro : Bool := false
  esperando : Option String := none
  titulo_temp : Option String := none
  autor_temp : Option String := none
  tipo_temp : Option String := none
  pagina_libros : Nat := 0
  listando_libros : Bool := false
  autor : Option String := none
  filtro : Option String := none
deriving DecidableEq

/-- The cleared session (`handler_input.attributes_manager.session_attributes
= {}`). -/
def Session.cleared : Session := {}

/-- The distinguishable responses emitted by the add-book dialog handlers,
one constructor per `speak` site in the source. -/
inductive DialogResponse where
  | askTitulo
  | askAutor (titulo : String)
  | askTipo (titulo autor : String)
  | commitResult (msg : Msg)
  | reAskTitulo
  | contAskAutor (valor : String)
  | contAskTipo (titulo autor : String)
  | contCommit (msg : Msg)
  | contFallback
deriving DecidableEq

/-- `AgregarLibroHandler.handle`: collect title, author and type from slots or
session temps, asking for the first missing one; once all three are present,
normalize the don't-know answers and commit through
`BookService.add_book`, clearing the session. -/
def AgregarLibroHandler.handle (now : Nat) (newId : String) (req : IntentRequest)
    (sa : Session) (ud : UserData) : DialogResponse × Session × UserData :=
  let titulo := pyOr (getSlotValue req "titulo") sa.titulo_temp
  let autor := pyOr (getSlotValue req "autor") sa.autor_temp
  let tipo := pyOr (getSlotValue req "tipo") sa.tipo_temp
  if !pyTruthy titulo then
    (DialogResponse.askTitulo,
     { sa with agregando_libro := true, esperando := some "titulo" }, ud)
  else
    let sa := { sa with titulo_temp := titulo }
    if !pyTruthy autor then
      (DialogResponse.askAutor (pyStr titulo),
       { sa with agregando_libro := true, esperando := some "autor" }, ud)
    else
      let sa := { sa with autor_temp := autor }
      if !pyTruthy tipo then
        (DialogResponse.askTipo (pyStr titulo) (pyStr autor),
         { sa with agregando_libro := true, esperando := some "tipo" }, ud)
      else
        let autorNorm :=
          if ["no sé", "no se", "no lo sé"].contains (pyStr autor).pyLower then
            "Desconocido"
          else pyStr autor
        let tipoNorm :=
          if ["no sé", "no se", "no lo sé"].contains (pyStr tipo).pyLower then
            "Sin categoría"
          else pyStr tipo
        let ((_, msg, _), ud') :=
          BookService.add_book ud newId now (pyStr titulo) autorNorm tipoNorm
        (DialogResponse.commitResult msg, Session.cleared, ud')

/-- `ContinuarAgregarHandler._extract_free_text`: the `respuesta` slot of
`RespuestaGeneralIntent` when truthy, else the first slot carrying a truthy
value. -/
def ContinuarAgregarHandler.extract_free_text (req : IntentRequest) : Option String :=
  let attempt1 : Option String :=
    if req.name = "RespuestaGeneralIntent" then
      let val := getSlotValue req "respuesta"
      if pyTruthy val then val else none
    else none
  match attempt1 with
  | some v => some v
  | none => req.slots.findSome? (fun p => if pyTruthy p.snd then p.snd else none)

/-- The don't-know utterances recognized at the author step. -/
def ContinuarAgregarHandler.dontKnowAutor : List String :=
  ["no sé", "no se", "no lo sé", "no lo se", "no sé el autor", "no se el autor"]

/-- The don't-know utterances recognized at the type step. -/
def ContinuarAgregarHandler.dontKnowTipo : List String :=
  ["no sé", "no se", "no lo sé", "no lo se", "no sé el tipo", "no se el tipo"]

/-- `ContinuarAgregarHandler.handle`: continue the add-book flow according to
`esperando`, mapping don't-know answers to the sentinels and stripping the
recognized prefixes, and commit through `BookService.add_book` after the type
step. -/
def ContinuarAgregarHandler.handle (now : Nat) (newId : String)
    (req : IntentRequest) (sa : Session) (ud : UserData) :
    DialogResponse × Session × UserData :=
  let valor := ContinuarAgregarHandler.extract_free_text req
  if sa.esperando = some "titulo" then
    if pyTruthy valor then
      (DialogResponse.contAskAutor (pyStr valor),
       { sa with titulo_temp := valor, esperando := some "autor" }, ud)
    else (DialogResponse.reAskTitulo, sa, ud)
  else if sa.esperando = some "autor" then
    let v := pyStr valor
    let v' :=
      if !pyTruthy valor || ContinuarAgregarHandler.dontKnowAutor.contains v.pyLower then
        "Desconocido"
      else if v.pyLower.pyStart "el autor es " then (v.pyDrop 12).pyStrip
      else if v.pyLower.pyStart "es " then (v.pyDrop 3).pyStrip
      else v
    (DialogResponse.contAskTipo (pyStr sa.titulo_temp) v',
     { sa with autor_temp := some v', esperando := some "tipo" }, ud)
  else if sa.esperando = some "tipo" then
    let v := pyStr valor
    let v' :=
      if !pyTruthy valor || ContinuarAgregarHandler.dontKnowTipo.contains v.pyLower then
        "Sin categoría"
      else if v.pyLower.pyStart "el tipo es " then (v.pyDrop 11).pyStrip
      else if v.pyLower.pyStart "es " then (v.pyDrop 3).pyStrip
      else v
    let titulo := sa.titulo_temp
    let autor := sa.autor_temp.getD "Desconocido"
    let ((_, msg, _), ud') := BookService.add_book ud newId now (pyStr titulo) autor v'
    (DialogResponse.contCommit msg, Session.cleared, ud')
  else (DialogResponse.contFallback, Session.cleared, ud)

/-! ## Pagination handlers (`handlers/listar_handler.py`,
`handlers/siguiente_pagina_handler.py`) -/

/-- `LIBROS_POR_PAGINA`. -/
def LIBROS_POR_PAGINA : Nat := 10

/-- The distinguishable responses of the listing handlers, one constructor per
`speak` site. -/
inductive ListResponse where
  | sinLibros
  | listaCompleta (titulos : List String)
  | pagina (inicio fin total : Nat) (titulos : List String) (hasMore : Bool)
  | noListado
  | finListado
deriving DecidableEq

/-- `ListarLibrosHandler._filtrar`: dispatch on the author and type filters
into the book-service listing operations. -/
def ListarLibrosHandler.filtrar (now : Nat) (ud : UserData)
    (autor filtro : Option String) : List Book :=
  if pyTruthy autor then
    BookService.search_books_by_author now ud (pyStr autor).pyStrip
  else if pyTruthy filtro then
    let f := (pyStr filtro).pyLower
    if f = "prestados" ∨ f = "prestado" then BookService.get_loaned_books now ud
    else if f = "disponibles" ∨ f = "disponible" then
      BookService.get_available_books now ud
    else BookService.get_all_books now ud
  else BookService.get_all_books now ud

/-- Python slice `libros[inicio:fin]`. -/
def pySlice (libros : List Book) (inicio fin : Nat) : List Book :=
  (libros.drop inicio).take (fin - inicio)

/-- `ListarLibrosHandler.handle`: list the filtered books, everything at once
when they fit in one page, else the current page slice, advancing or clearing
the pagination session state. -/
def ListarLibrosHandler.handle (now : Nat) (req : IntentRequest) (sa : Session)
    (ud : UserData) : ListResponse × Session :=
  let autorSlot := getSlotValue req "autor"
  let filtroSlot := getSlotValue req "filtro_tipo"
  let autor :=
    if !pyTruthy autorSlot ∧ !pyTruthy filtroSlot ∧ sa.listando_libros then sa.autor
    else autorSlot
  let filtro :=
    if !pyTruthy autorSlot ∧ !pyTruthy filtroSlot ∧ sa.listando_libros then sa.filtro
    else filtroSlot
  let libros := ListarLibrosHandler.filtrar now ud autor filtro
  if libros.isEmpty then (ListResponse.sinLibros, sa)
  else
    let pagina := sa.pagina_libros
    let inicio := pagina * LIBROS_POR_PAGINA
    let fin := min (inicio + LIBROS_POR_PAGINA) libros.length
    let libros_pagina := pySlice libros inicio fin
    if libros.length ≤ LIBROS_POR_PAGINA then
      (ListResponse.listaCompleta (libros.map (fun l => l.titulo)),
       { sa with pagina_libros := 0, listando_libros := false })
    else if fin < libros.length then
      (ListResponse.pagina inicio fin libros.length
         (libros_pagina.map (fun l => l.titulo)) true,
       { sa with pagina_libros := pagina + 1, listando_libros := true,
                 autor := autor, filtro := filtro })
    else
      (ListResponse.pagina inicio fin libros.length
         (libros_pagina.map (fun l => l.titulo)) false,
       { sa with pagina_libros := 0, listando_libros := false })

/-- The full filtered list `SiguientePaginaHandler.handle` recomputes from the
filters stored in the session. -/
def SiguientePaginaHandler.lista (now : Nat) (ud : UserData) (sa : Session) :
    List Book :=
  if pyTruthy sa.autor then
    BookService.search_books_by_author now ud (pyStr sa.autor)
  else if pyTruthy sa.filtro ∧
      ((pyStr sa.filtro).pyLower = "prestados" ∨ (pyStr sa.filtro).pyLower = "prestado") then
    BookService.get_loaned_books now ud
  else if pyTruthy sa.filtro ∧
      ((pyStr sa.filtro).pyLower = "disponibles" ∨ (pyStr sa.filtro).pyLower = "disponible") then
    BookService.get_available_books now ud
  else BookService.get_all_books now ud

/-- `SiguientePaginaHandler.handle`: a "next" turn; without an active listing
it answers that no listing is in progress, otherwise it serves the next slice
of the stored filter's list, advancing or clearing the pagination state. -/
def SiguientePaginaHandler.handle (now : Nat) (sa : Session) (ud : UserData) :
    ListResponse × Session :=
  if !sa.listando_libros then (ListResponse.noListado, sa)
  else
    let pagina := sa.pagina_libros
    let libros := SiguientePaginaHandler.lista now ud sa
    let inicio := pagina * LIBROS_POR_PAGINA
    let fin := min (inicio + LIBROS_POR_PAGINA) libros.length
    let libros_pagina := pySlice libros inicio fin
    if libros_pagina.isEmpty then
      (ListResponse.finListado,
       { sa with pagina_libros := 0, listando_libros := false })
    else if fin < libros.length then
      (ListResponse.pagina inicio fin libros.length
         (libros_pagina.map (fun l => l.titulo)) true,
       { sa with pagina_libros := pagina + 1, listando_libros := true })
    else
      (ListResponse.pagina inicio fin libros.length
         (libros_pagina.map (fun l => l.titulo)) false,
       { sa with pagina_libros := 0, listando_libros := false })

/-! ## In-memory cache (`adapters/cache_adapter.py`) and the cached
repository paths

The cache is an association list from keys to `{data, expire_at, created_at}`
entries (Python dict with insertion-order semantics).  The persistent store
behind the repositories' stubbed `_get_user_data`/`_save_user_data` is
modelled from the spec as the user's durable aggregate. -/

/-- A cache entry: `{data, expire_at, created_at}` as stored by
`MemoryCacheService.set`. -/
structure CacheEntry where
  data : UserData
  expire_at : Nat
  created_at : Nat
deriving DecidableEq

/-- The in-memory cache: key to entry, insertion-ordered. -/
abbrev Cache := List (String × CacheEntry)

/-- Lookup of a key's entry. -/
def cacheFind (c : Cache) (key : String) : Option CacheEntry :=
  match c.find? (fun p => p.fst == key) with
  | some p => some p.snd
  | none => none

/-- Python dict assignment: replace the first binding of the key in place,
else append. -/
def cacheInsert : Cache → String → CacheEntry → Cache
  | [], k, e => [(k, e)]
  | (k', e') :: rest, k, e =>
    if k' = k then (k, e) :: rest else (k', e') :: cacheInsert rest k e

/-- `MemoryCacheService.delete`. -/
def MemoryCacheService.delete (c : Cache) (key : String) : Cache :=
  c.filter (fun p => p.fst != key)

/-- `MemoryCacheService.get`: a hit returns the stored data; an entry whose
expiry instant has passed is deleted and reported as a miss.  (The Python
guard `if expire_at and now > expire_at` also requires the stored timestamp to
be truthy, hence the `expire_at ≠ 0` conjunct.) -/
def MemoryCacheService.get (now : Nat) (c : Cache) (key : String) :
    Option UserData × Cache :=
  match cacheFind c key with
  | none => (none, c)
  | some item =>
    if item.expire_at ≠ 0 ∧ now > item.expire_at then
      (none, MemoryCacheService.delete c key)
    else (some item.data, c)

/-- `MemoryCacheService.set`: store the data with its creation timestamp and
the expiry instant `now + ttl_seconds`. -/
def MemoryCacheService.set (now : Nat) (c : Cache) (key : String)
    (data : UserData) (ttl_seconds : Nat) : Cache :=
  cacheInsert c key
    { data := data, expire_at := now + ttl_seconds, created_at := now }

/-- `self._cache_ttl = 3600` in both repositories. -/
def repositoryCacheTtl : Nat := 3600

/-- `BookRepository.find_all` with the cache enabled: try the cache key
`books_{user_id}`; on a miss, load the aggregate from the persistent store and
seed the cache with it.  Modelled from the spec: the store read stands for the
stubbed `_get_user_data` ("En implementación real" it would go through the
data adapter), per the spec's read path. -/
def BookRepository.find_all_c (now : Nat) (store : UserData) (c : Cache)
    (user_id : String) : List Book × Cache :=
  match MemoryCacheService.get now c ("books_" ++ user_id) with
  | (some cached, c') => (cached.libros_disponibles, c')
  | (none, c') =>
    (store.libros_disponibles,
     MemoryCacheService.set now c' ("books_" ++ user_id) store repositoryCacheTtl)

/-- `BookRepository.save` with the cache enabled: write through to the store,
then invalidate the `books_{user_id}` cache entry.  The store write stands for
the stubbed `_save_user_data`, modelled from the spec's write path. -/
def BookRepository.save_c (store : UserData) (c : Cache) (user_id : String)
    (book : Book) : UserData × Cache :=
  (BookRepository.save store book,
   MemoryCacheService.delete c ("books_" ++ user_id))

/-- `BookRepository.delete` with the cache enabled: the cache entry is
invalidated only when a book was actually removed. -/
def BookRepository.delete_c (store : UserData) (c : Cache) (user_id book_id : String) :
    Bool × UserData × Cache :=
  if (BookRepository.delete store book_id).1 then
    (true, (BookRepository.delete store book_id).2,
     MemoryCacheService.delete c ("books_" ++ user_id))
  else (false, (BookRepository.delete store book_id).2, c)

/-- `LoanRepository._get_user_data` with the cache enabled: try the cache key
`user_data_{user_id}`, else read the persistent store (modelled from the
spec: the store read stands for the stubbed data-adapter access). -/
def LoanRepository.get_user_data_c (now : Nat) (store : UserData) (c : Cache)
    (user_id : String) : UserData × Cache :=
  match MemoryCacheService.get now c ("user_data_" ++ user_id) with
  | (some cached, c') => (cached, c')
  | (none, c') => (store, c')

/-- `LoanRepository.save_loan` with the cache enabled: load, mutate, write
through, then `_invalidate_cache` deletes the `user_data_{user_id}` entry. -/
def LoanRepository.save_loan_c (now : Nat) (store : UserData) (c : Cache)
    (user_id : String) (loan : Loan) : UserData × Cache :=
  (LoanRepository.save_loan (LoanRepository.get_user_data_c now store c user_id).1 loan,
   MemoryCacheService.delete (LoanRepository.get_user_data_c now store c user_id).2
     ("user_data_" ++ user_id))

/-- `LoanRepository.complete_loan` with the cache enabled: on success the
`user_data_{user_id}` entry is invalidated; a miss performs no write and no
invalidation. -/
def LoanRepository.complete_loan_c (now : Nat) (store : UserData) (c : Cache)
    (user_id loan_id : String) : Bool × UserData × Cache :=
  if (LoanRepository.complete_loan now
        (LoanRepository.get_user_data_c now store c user_id).1 loan_id).1 then
    (true,
     (LoanRepository.complete_loan now
        (LoanRepository.get_user_data_c now store c user_id).1 loan_id).2,
     MemoryCacheService.delete (LoanRepository.get_user_data_c now store c user_id).2
       ("user_data_" ++ user_id))
  else
    (false,
     (LoanRepository.complete_loan now
        (LoanRepository.get_user_data_c now store c user_id).1 loan_id).2,
     (LoanRepository.get_user_data_c now store c user_id).2)

/-! ## The book/loan consistency invariant (spec §3 / §8) -/

/-- The core invariant: a book is `PRESTADO` exactly when some loan in the
active-loans list references it. -/
def booksLoansInvariant (ud : UserData) : Prop :=
  ∀ b ∈ ud.libros_disponibles,
    (b.estado = BookStatus.prestado ↔ ∃ l ∈ ud.prestamos_activos, l.libro_id = b.id)

instance (ud : UserData) : Decidable (booksLoansInvariant ud) := by
  unfold booksLoansInvariant
  exact inferInstance

/-! ## Supporting lemmas -/

/-- Re-deriving a loan's state does not change its id. -/
theorem Loan.actualizar_estado_id (l : Loan) (now : Nat) :
    (l.actualizar_estado now).id = l.id := by
  unfold Loan.actualizar_estado
  split <;> rfl

/-- Re-deriving a loan's state does not change its title. -/
theorem Loan.actualizar_estado_titulo (l : Loan) (now : Nat) :
    (l.actualizar_estado now).titulo = l.titulo := by
  unfold Loan.actualizar_estado
  split <;> rfl

/-- Re-deriving a loan's state does not change the referenced book. -/
theorem Loan.actualizar_estado_libro (l : Loan) (now : Nat) :
    (l.actualizar_estado now).libro_id = l.libro_id := by
  unfold Loan.actualizar_estado
  split <;> rfl

/-- A loan that is not stored as active, or whose due date has passed, is not
active after the read-time state re-derivation. -/
theorem Loan.actualizar_not_active (l : Loan) (now : Nat)
    (h : l.estado = LoanStatus.activo → l.fecha_limite < now) :
    (l.actualizar_estado now).esta_activo = false := by
  cases hl : l.estado with
  | activo =>
    have hv : l.fecha_limite < now := h hl
    simp [Loan.actualizar_estado, Loan.esta_activo, Loan.esta_vencido, hl, hv]
  | devuelto =>
    simp [Loan.actualizar_estado, Loan.esta_activo, Loan.esta_vencido, hl]
  | vencido =>
    simp [Loan.actualizar_estado, Loan.esta_activo, Loan.esta_vencido, hl]

/-! ## Claim theorems -/

/-- C2: when the user's collection already contains a book whose title matches
the given title case-insensitively after trimming (the repository's
`exists_title` check), a further `add_book` with that title fails with the
duplicate-title message and leaves the whole aggregate — in particular the
book collection — unchanged. -/
theorem C2_duplicate_add_book (ud : UserData) (newId : String) (now : Nat)
    (titulo autor tipo : String)
    (hne : titulo.pyStrip ≠ "")
    (hdup : BookRepository.exists_title ud titulo.pyStrip = true) :
    BookService.add_book ud newId now titulo autor tipo =
      ((false, Msg.yaExiste titulo.pyStrip, none), ud) := by
  unfold BookService.add_book
  simp [hne, hdup]

/-- Witness for C2: adding "Dune" twice; the second call fails and the
collection is unchanged. -/
theorem C2_duplicate_add_book_witness :
    BookService.add_book
        { libros_disponibles := [{ id := "b1", titulo := "Dune" }] } "b2" 5
        "Dune" "Herbert" "sci-fi" =
      ((false, Msg.yaExiste "Dune".pyStrip, none),
       { libros_disponibles := [{ id := "b1", titulo := "Dune" }] }) :=
  C2_duplicate_add_book
    { libros_disponibles := [{ id := "b1", titulo := "Dune" }] } "b2" 5
    "Dune" "Herbert" "sci-fi" (by decide) (by decide)

/-- C3: when the user already has at least the maximum allowed number of
active loans (10), `create_loan` on an available book (resolved by id, with no
active-list loan referencing it) fails with the limit message and creates no
loan: the aggregate is returned unchanged. -/
theorem C3_loan_limit (now : Nat) (ud : UserData) (newLoanId : String)
    (book : Book) (bid : String) (person_name : Option String)
    (loan_days : Option Nat)
    (hbid : bid ≠ "")
    (hfound : BookRepository.find_by_id ud bid = some book)
    (havail : LoanRepository.find_by_book_id now ud book.id = none)
    (hlimit : LoanService.max_loans_per_user ≤ ud.prestamos_activos.length) :
    LoanService.create_loan now ud newLoanId none (some bid) person_name loan_days =
      ((false, Msg.limiteAlcanzado LoanService.max_loans_per_user, none), ud) := by
  unfold LoanService.create_loan LoanService.lookupBook
  simp [pyTruthy, pyStr, hbid, hfound, havail]
  unfold LoanService.create_loan_body
  simp [LoanRepository.find_active_loans, hlimit]

/-- Witness for C3: ten active loans on other books block an eleventh
loan of the available book `b0`. -/
theorem C3_loan_limit_witness :
    LoanService.create_loan 0
        { libros_disponibles := [{ id := "b0", titulo := "Dune" }]
          prestamos_activos :=
            (List.range 10).map (fun i =>
              { id := Nat.repr i, libro_id := "x" ++ Nat.repr i, titulo := "T" }) }
        "l11" none (some "b0") none none =
      ((false, Msg.limiteAlcanzado LoanService.max_loans_per_user, none),
       { libros_disponibles := [{ id := "b0", titulo := "Dune" }]
         prestamos_activos :=
           (List.range 10).map (fun i =>
             { id := Nat.repr i, libro_id := "x" ++ Nat.repr i, titulo := "T" }) }) :=
  C3_loan_limit 0
    { libros_disponibles := [{ id := "b0", titulo := "Dune" }]
      prestamos_activos :=
        (List.range 10).map (fun i =>
          { id := Nat.repr i, libro_id := "x" ++ Nat.repr i, titulo := "T" }) }
    "l11" { id := "b0", titulo := "Dune" } "b0" none none
    (by decide) (by decide) (by decide) (by decide)

/-- C10: when every active-list loan that would resolve for the given loan id
or book title has a passed due date (so the read-time re-derivation marks it
`VENCIDO` and `esta_activo` fails), `return_loan` — by loan id as well as by
book title — fails with the no-active-loan message and leaves the aggregate,
in particular the active-loans list, unchanged. -/
theorem C10_overdue_return_blocked (now : Nat) (ud : UserData) (title lid : String)
    (hlid : lid ≠ "") (htitle : title ≠ "")
    (hid : ∀ l ∈ ud.prestamos_activos, l.id = lid →
             l.estado = LoanStatus.activo → l.fecha_limite < now)
    (hti : ∀ l ∈ ud.prestamos_activos, l.coincide_titulo title.pyStrip = true →
             l.estado = LoanStatus.activo → l.fecha_limite < now) :
    LoanService.return_loan now ud none (some lid) =
      ((false, Msg.noPrestamoActivo lid, none), ud) ∧
    LoanService.return_loan now ud (some title) none =
      ((false, Msg.noPrestamoActivo title, none), ud) := by
  constructor
  · unfold LoanService.return_loan
    simp only [pyTruthy, pyStr, Option.getD]
    rcases hfind : (LoanRepository.find_active_loans now ud).find?
        (fun l => l.id == lid) with _ | l'
    · simp [hlid, hfind]
    · have hmem := List.mem_of_find?_eq_some hfind
      rw [LoanRepository.find_active_loans] at hmem
      obtain ⟨l₀, hl₀, rfl⟩ := List.mem_map.mp hmem
      have hp := List.find?_some hfind
      have hpid : l₀.id = lid := by
        have hids := Loan.actualizar_estado_id l₀ now
        simpa [hids] using hp
      have hact : (l₀.actualizar_estado now).esta_activo = false :=
        Loan.actualizar_not_active l₀ now (hid l₀ hl₀ hpid)
      simp [hlid, hfind, hact]
  · unfold LoanService.return_loan LoanRepository.find_by_title
    simp only [pyTruthy, pyStr, Option.getD]
    rcases hfind : (LoanRepository.find_active_loans now ud).find?
        (fun l => l.coincide_titulo title.pyStrip) with _ | l'
    · simp [htitle, hfind]
    · have hmem := List.mem_of_find?_eq_some hfind
      rw [LoanRepository.find_active_loans] at hmem
      obtain ⟨l₀, hl₀, rfl⟩ := List.mem_map.mp hmem
      have hp := List.find?_some hfind
      have hpt : l₀.coincide_titulo title.pyStrip = true := by
        have hts := Loan.actualizar_estado_titulo l₀ now
        simpa [Loan.coincide_titulo, hts] using hp
      have hact : (l₀.actualizar_estado now).esta_activo = false :=
        Loan.actualizar_not_active l₀ now (hti l₀ hl₀ hpt)
      simp [htitle, hfind, hact]

/-- Witness for C10: one overdue active loan on "Dune"; returning it by loan
id and by title both fail and leave the state unchanged. -/
theorem C10_overdue_return_blocked_witness :
    LoanService.return_loan 10
        { libros_disponibles :=
            [{ id := "b1", titulo := "Dune", estado := BookStatus.prestado }]
          prestamos_activos :=
            [{ id := "l1", libro_id := "b1", titulo := "Dune", fecha_limite := 5 }] }
        none (some "l1") =
      ((false, Msg.noPrestamoActivo "l1", none),
       { libros_disponibles :=
           [{ id := "b1", titulo := "Dune", estado := BookStatus.prestado }]
         prestamos_activos :=
           [{ id := "l1", libro_id := "b1", titulo := "Dune", fecha_limite := 5 }] }) ∧
    LoanService.return_loan 10
        { libros_disponibles :=
            [{ id := "b1", titulo := "Dune", estado := BookStatus.prestado }]
          prestamos_activos :=
            [{ id := "l1", libro_id := "b1", titulo := "Dune", fecha_limite := 5 }] }
        (some "Dune") none =
      ((false, Msg.noPrestamoActivo "Dune", none),
       { libros_disponibles :=
           [{ id := "b1", titulo := "Dune", estado := BookStatus.prestado }]
         prestamos_activos :=
           [{ id := "l1", libro_id := "b1", titulo := "Dune", fecha_limite := 5 }] }) :=
  C10_overdue_return_blocked 10
    { libros_disponibles :=
        [{ id := "b1", titulo := "Dune", estado := BookStatus.prestado }]
      prestamos_activos :=
        [{ id := "l1", libro_id := "b1", titulo := "Dune", fecha_limite := 5 }] }
    "Dune" "l1" (by decide) (by decide) (by decide) (by decide)

/-- The first C6 turn: an add-book intent with no slots, on a fresh session
and an empty user record. -/
def C6turn1 : DialogResponse × Session × UserData :=
  AgregarLibroHandler.handle 0 "dune-id" { name := "AgregarLibroIntent" }
    Session.cleared UserData.initial

/-- The second C6 turn: free-text answer "Dune". -/
def C6turn2 : DialogResponse × Session × UserData :=
  ContinuarAgregarHandler.handle 0 "dune-id"
    { name := "RespuestaGeneralIntent", slots := [("respuesta", some "Dune")] }
    C6turn1.2.1 C6turn1.2.2

/-- The third C6 turn: free-text answer "no sé". -/
def C6turn3 : DialogResponse × Session × UserData :=
  ContinuarAgregarHandler.handle 0 "dune-id"
    { name := "RespuestaGeneralIntent", slots := [("respuesta", some "no sé")] }
    C6turn2.2.1 C6turn2.2.2

/-- The fourth C6 turn: free-text answer "sci-fi". -/
def C6turn4 : DialogResponse × Session × UserData :=
  ContinuarAgregarHandler.handle 0 "dune-id"
    { name := "RespuestaGeneralIntent", slots := [("respuesta", some "sci-fi")] }
    C6turn3.2.1 C6turn3.2.2

/-- C6: the four-turn add-book dialog.  Turn 1 prompts for the title with the
session awaiting "titulo"; turn 2 ("Dune") prompts for the author with the
title stored; turn 3 ("no sé") maps the author to the unknown sentinel
"Desconocido" and prompts for the type; turn 4 ("sci-fi") commits the book
"Dune" by "Desconocido" of type "sci-fi" through `add_book` and clears every
session attribute. -/
theorem C6_dialog_flow :
    C6turn1.1 = DialogResponse.askTitulo ∧
    C6turn1.2.1 = { Session.cleared with
                    agregando_libro := true,
                    esperando := some "titulo" } ∧
    C6turn2.1 = DialogResponse.contAskAutor "Dune" ∧
    C6turn2.2.1 = { Session.cleared with
                    agregando_libro := true,
                    esperando := some "autor",
                    titulo_temp := some "Dune" } ∧
    C6turn3.1 = DialogResponse.contAskTipo "Dune" "Desconocido" ∧
    C6turn3.2.1 = { Session.cleared with
                    agregando_libro := true,
                    esperando := some "tipo",
                    titulo_temp := some "Dune",
                    autor_temp := some "Desconocido" } ∧
    C6turn4.1 = DialogResponse.contCommit (Msg.libroAgregado "Dune") ∧
    C6turn4.2.1 = Session.cleared ∧
    C6turn4.2.2.libros_disponibles =
      [{ id := "dune-id", titulo := "Dune", autor := "Desconocido",
         tipo := "sci-fi", fecha_agregado := 0,
         estado := BookStatus.disponible, total_prestamos := 0 }] := by
  decide

/-! ## Cache lemmas -/

/-- Looking up a key right after inserting it yields the inserted entry. -/
theorem cacheFind_insert (c : Cache) (k : String) (e : CacheEntry) :
    cacheFind (cacheInsert c k e) k = some e := by
  induction c with
  | nil => simp [cacheInsert, cacheFind]
  | cons p rest ih =>
    rcases p with ⟨k', e'⟩
    by_cases h : k' = k
    · simp [cacheInsert, h, cacheFind]
    · simpa [cacheInsert, h, cacheFind] using ih

/-- A deleted key is absent. -/
theorem cacheFind_delete (c : Cache) (k : String) :
    cacheFind (MemoryCacheService.delete c k) k = none := by
  have h : List.find? (fun p => p.fst == k) (MemoryCacheService.delete c k) = none := by
    rw [List.find?_eq_none]
    intro x hx
    have hcond := (List.mem_filter.mp hx).2
    simpa using hcond
  simp [cacheFind, h]

/-- Deleting a key twice is the same as deleting it once. -/
theorem cacheDelete_idem (c : Cache) (k : String) :
    MemoryCacheService.delete (MemoryCacheService.delete c k) k =
      MemoryCacheService.delete c k := by
  simp [MemoryCacheService.delete, List.filter_filter]

/-- Reading a deleted key misses and leaves the cache as it is. -/
theorem cacheGet_delete (now : Nat) (c : Cache) (k : String) :
    MemoryCacheService.get now (MemoryCacheService.delete c k) k =
      (none, MemoryCacheService.delete c k) := by
  simp [MemoryCacheService.get, cacheFind_delete]

/-- Deleting a key after a `get` of that same key equals deleting it from the
original cache (the `get` either leaves the cache alone or already deletes
exactly that key). -/
theorem cacheDelete_after_get (now : Nat) (c : Cache) (k : String) :
    MemoryCacheService.delete (MemoryCacheService.get now c k).2 k =
      MemoryCacheService.delete c k := by
  unfold MemoryCacheService.get
  rcases h : cacheFind c k with _ | e
  · simp
  · by_cases hx : e.expire_at ≠ 0 ∧ now > e.expire_at
    · simp [hx, cacheDelete_idem]
    · simp [hx]

/-- Reading a key strictly after its expiry instant deletes the entry and
misses. -/
theorem cacheGet_after_set_expired (c : Cache) (key : String) (d : UserData)
    (ttl t₀ t₁ : Nat) (hpos : 0 < t₀ + ttl) (hexp : t₀ + ttl < t₁) :
    MemoryCacheService.get t₁ (MemoryCacheService.set t₀ c key d ttl) key =
      (none, MemoryCacheService.delete (MemoryCacheService.set t₀ c key d ttl) key) := by
  unfold MemoryCacheService.get MemoryCacheService.set
  rw [cacheFind_insert]
  simp only
  rw [if_pos ⟨by omega, hexp⟩]

/-- The loan repository's cached load leaves the cache exactly as the
underlying `get` does. -/
theorem LoanRepository.get_user_data_c_snd (now : Nat) (store : UserData)
    (c : Cache) (uid : String) :
    (LoanRepository.get_user_data_c now store c uid).2 =
      (MemoryCacheService.get now c ("user_data_" ++ uid)).2 := by
  unfold LoanRepository.get_user_data_c
  rcases h : MemoryCacheService.get now c ("user_data_" ++ uid) with ⟨o, c'⟩
  cases o <;> simp

/-- C8: an entry stored by `set` records the data with its creation timestamp
and expiry instant `t₀ + ttl`; a `get` strictly after that instant deletes the
entry and returns a miss; and after such a miss the book repository's cached
read path falls back to the persistent store and re-seeds the cache with the
loaded aggregate. -/
theorem C8_cache_expiry (c : Cache) (key uid : String) (d store : UserData)
    (ttl t₀ t₁ : Nat) (hpos : 0 < t₀ + ttl) (hexp : t₀ + ttl < t₁) :
    cacheFind (MemoryCacheService.set t₀ c key d ttl) key =
      some { data := d, expire_at := t₀ + ttl, created_at := t₀ } ∧
    MemoryCacheService.get t₁ (MemoryCacheService.set t₀ c key d ttl) key =
      (none, MemoryCacheService.delete (MemoryCacheService.set t₀ c key d ttl) key) ∧
    BookRepository.find_all_c t₁ store
        (MemoryCacheService.set t₀ c ("books_" ++ uid) d ttl) uid =
      (store.libros_disponibles,
       MemoryCacheService.set t₁
         (MemoryCacheService.delete
           (MemoryCacheService.set t₀ c ("books_" ++ uid) d ttl) ("books_" ++ uid))
         ("books_" ++ uid) store repositoryCacheTtl) := by
  refine ⟨cacheFind_insert c key _, cacheGet_after_set_expired c key d ttl t₀ t₁ hpos hexp, ?_⟩
  unfold BookRepository.find_all_c
  rw [cacheGet_after_set_expired c ("books_" ++ uid) d ttl t₀ t₁ hpos hexp]

/-- Witness for C8: the spec scenario, an entry set at time 0 with TTL 1 and
read at time 2. -/
theorem C8_cache_expiry_witness :
    cacheFind (MemoryCacheService.set 0 [] "k" UserData.initial 1) "k" =
      some { data := UserData.initial, expire_at := 0 + 1, created_at := 0 } ∧
    MemoryCacheService.get 2 (MemoryCacheService.set 0 [] "k" UserData.initial 1) "k" =
      (none, MemoryCacheService.delete (MemoryCacheService.set 0 [] "k" UserData.initial 1) "k") ∧
    BookRepository.find_all_c 2
        { libros_disponibles := [{ id := "b1", titulo := "Dune" }] }
        (MemoryCacheService.set 0 [] ("books_" ++ "u") UserData.initial 1) "u" =
      (UserData.libros_disponibles
         { libros_disponibles := [{ id := "b1", titulo := "Dune" }] },
       MemoryCacheService.set 2
         (MemoryCacheService.delete
           (MemoryCacheService.set 0 [] ("books_" ++ "u") UserData.initial 1) ("books_" ++ "u"))
         ("books_" ++ "u")
         { libros_disponibles := [{ id := "b1", titulo := "Dune" }] }
         repositoryCacheTtl) :=
  C8_cache_expiry [] "k" "u" UserData.initial
    { libros_disponibles := [{ id := "b1", titulo := "Dune" }] }
    1 0 2 (by decide) (by decide)

/-- C9: each repository write path ends with the cache entry for that user's
key deleted — the book repository's save and (successful) delete invalidate
`books_{uid}`, the loan repository's save and (successful) completion
invalidate `user_data_{uid}` — and the resulting cache equals the original
with that key deleted, so the mutated aggregate is never written into the
cache and the next read of that key misses (forcing a reload from the
persistent store). -/
theorem C9_write_invalidation (now : Nat) (store : UserData) (c : Cache)
    (uid : String) (book : Book) (loan : Loan) (bid lid : String) :
    (BookRepository.save_c store c uid book).2 =
      MemoryCacheService.delete c ("books_" ++ uid) ∧
    ((BookRepository.delete_c store c uid bid).1 = true →
      (BookRepository.delete_c store c uid bid).2.2 =
        MemoryCacheService.delete c ("books_" ++ uid)) ∧
    (LoanRepository.save_loan_c now store c uid loan).2 =
      MemoryCacheService.delete c ("user_data_" ++ uid) ∧
    ((LoanRepository.complete_loan_c now store c uid lid).1 = true →
      (LoanRepository.complete_loan_c now store c uid lid).2.2 =
        MemoryCacheService.delete c ("user_data_" ++ uid)) ∧
    MemoryCacheService.get now (MemoryCacheService.delete c ("books_" ++ uid))
        ("books_" ++ uid) =
      (none, MemoryCacheService.delete c ("books_" ++ uid)) := by
  refine ⟨rfl, ?_, ?_, ?_, cacheGet_delete now c ("books_" ++ uid)⟩
  · intro h
    unfold BookRepository.delete_c at h ⊢
    by_cases hdel : (BookRepository.delete store bid).1 = true
    · simp [hdel]
    · simp [hdel] at h
  · unfold LoanRepository.save_loan_c
    rw [LoanRepository.get_user_data_c_snd, cacheDelete_after_get]
  · intro h
    unfold LoanRepository.complete_loan_c at h ⊢
    by_cases hok : (LoanRepository.complete_loan now
        (LoanRepository.get_user_data_c now store c uid).1 lid).1 = true
    · simp only [hok, if_true]
      rw [LoanRepository.get_user_data_c_snd, cacheDelete_after_get]
    · simp [hok] at h

/-- Witness for C9: a successful book delete and a successful loan completion
both leave the cache equal to the original cache minus the user's key. -/
theorem C9_write_invalidation_witness :
    (BookRepository.delete_c { libros_disponibles := [{ id := "b1", titulo := "Dune" }] }
        [] "u" "b1").2.2 = MemoryCacheService.delete [] ("books_" ++ "u") ∧
    (LoanRepository.complete_loan_c 0
        { prestamos_activos := [{ id := "l1", libro_id := "b1", titulo := "Dune" }] }
        [] "u" "l1").2.2 = MemoryCacheService.delete [] ("user_data_" ++ "u") :=
  ⟨(C9_write_invalidation 0 { libros_disponibles := [{ id := "b1", titulo := "Dune" }] }
      [] "u" { id := "b1", titulo := "Dune" } { id := "l1", libro_id := "b1", titulo := "Dune" }
      "b1" "l1").2.1 (by decide),
   (C9_write_invalidation 0
      { prestamos_activos := [{ id := "l1", libro_id := "b1", titulo := "Dune" }] }
      [] "u" { id := "b1", titulo := "Dune" } { id := "l1", libro_id := "b1", titulo := "Dune" }
      "b1" "l1").2.2.2.1 (by decide)⟩

/-- Removing an element that fails the filter strictly shrinks the list. -/
theorem length_filter_lt {α : Type} (p : α → Bool) {l : List α} {x : α}
    (hx : x ∈ l) (hp : p x = false) : (l.filter p).length < l.length := by
  induction l with
  | nil => cases hx
  | cons a as ih =>
    rcases List.mem_cons.mp hx with rfl | hmem
    · rw [List.filter_cons, hp]
      simp only [List.length_cons]
      exact Nat.lt_succ_of_le (List.length_filter_le p as)
    · by_cases hpa : p a = true
      · rw [List.filter_cons, hpa]
        simp only [List.length_cons]
        exact Nat.succ_lt_succ (ih hmem)
      · rw [List.filter_cons, Bool.of_not_eq_true hpa]
        simp only [List.length_cons]
        exact Nat.lt_succ_of_lt (ih hmem)

/-- Deleting a book that is in the collection succeeds and keeps exactly the
books with a different id. -/
theorem BookRepository.delete_mem (ud : UserData) (b : Book)
    (hb : b ∈ ud.libros_disponibles) :
    BookRepository.delete ud b.id =
      (true,
       { ud with
         libros_disponibles :=
           ud.libros_disponibles.filter (fun x => x.id != b.id)
         estadisticas :=
           { ud.estadisticas with
             total_libros :=
               (ud.libros_disponibles.filter (fun x => x.id != b.id)).length } }) := by
  unfold BookRepository.delete
  rw [if_pos]
  exact length_filter_lt _ hb (by simp)

/-- Counterexample to C5: with two books matching the title "Dune",
`delete_book` does not fail with an ambiguity error — it succeeds and deletes
the first match. -/
theorem C5_delete_ambiguous_counterexample :
    (BookRepository.find_by_title
        { libros_disponibles :=
            [{ id := "b1", titulo := "Dune" }, { id := "b2", titulo := "Dune II" }] }
        "Dune").length = 2 ∧
    (BookService.delete_book 0
        { libros_disponibles :=
            [{ id := "b1", titulo := "Dune" }, { id := "b2", titulo := "Dune II" }] }
        none (some "Dune")).1 =
      (true, Msg.libroEliminado "Dune", some { id := "b1", titulo := "Dune" }) ∧
    (BookService.delete_book 0
        { libros_disponibles :=
            [{ id := "b1", titulo := "Dune" }, { id := "b2", titulo := "Dune II" }] }
        none (some "Dune")).2.libros_disponibles =
      [{ id := "b2", titulo := "Dune II" }] := by
  decide

/-- C5 amended: `delete_book` resolves the book by id or by title; it fails
with the not-found message when nothing matches, and when the title matches
several books there is no ambiguity error — the first match is acted on: it is
deleted (every book with its id is removed) unless an active-list loan
references it, in which case the conflict message is returned and nothing is
deleted. -/
theorem C5_delete_resolution (now : Nat) (ud : UserData) (bid title : String)
    (hbid : bid ≠ "") (htitle : title ≠ "") :
    (BookRepository.find_by_id ud bid = none →
       BookService.delete_book now ud (some bid) none =
         ((false, Msg.libroNoEncontrado, none), ud)) ∧
    (BookRepository.find_by_title ud title.pyStrip = [] →
       BookService.delete_book now ud none (some title) =
         ((false, Msg.libroNoEncontrado, none), ud)) ∧
    (∀ b rest, BookRepository.find_by_title ud title.pyStrip = b :: rest →
       LoanRepository.find_by_book_id now ud b.id = none →
       BookService.delete_book now ud none (some title) =
         ((true, Msg.libroEliminado b.titulo, some b),
          { ud with
            libros_disponibles :=
              ud.libros_disponibles.filter (fun x => x.id != b.id)
            estadisticas :=
              { ud.estadisticas with
                total_libros :=
                  (ud.libros_disponibles.filter (fun x => x.id != b.id)).length } })) ∧
    (∀ b rest loanB, BookRepository.find_by_title ud title.pyStrip = b :: rest →
       LoanRepository.find_by_book_id now ud b.id = some loanB →
       BookService.delete_book now ud none (some title) =
         ((false, Msg.noSePuedeEliminarPrestado b.titulo loanB.persona, some b), ud)) := by
  refine ⟨?_, ?_, ?_, ?_⟩
  · intro hnone
    unfold BookService.delete_book
    simp [pyTruthy, pyStr, hbid, hnone]
  · intro hnone
    unfold BookService.delete_book
    simp [pyTruthy, pyStr, htitle, hnone]
  · intro b rest hfirst hnoloan
    have hmem : b ∈ ud.libros_disponibles := by
      have : b ∈ BookRepository.find_by_title ud title.pyStrip := by
        rw [hfirst]; exact List.mem_cons_self b rest
      exact (List.mem_filter.mp this).1
    unfold BookService.delete_book
    simp [pyTruthy, pyStr, htitle, hfirst, hnoloan, BookRepository.delete_mem ud b hmem]
  · intro b rest loanB hfirst hloan
    unfold BookService.delete_book
    simp [pyTruthy, pyStr, htitle, hfirst, hloan]

/-- Witness for C5's amended theorem: a no-match title fails not-found, and a
title matching one unloaned book deletes it. -/
theorem C5_delete_resolution_witness :
    BookService.delete_book 0
        { libros_disponibles := [{ id := "b1", titulo := "Dune" }] }
        none (some "Hobbit") =
      ((false, Msg.libroNoEncontrado, none),
       { libros_disponibles := [{ id := "b1", titulo := "Dune" }] }) ∧
    BookService.delete_book 0
        { libros_disponibles := [{ id := "b1", titulo := "Dune" }] }
        none (some "Dune") =
      ((true, Msg.libroEliminado "Dune", some { id := "b1", titulo := "Dune" }),
       { libros_disponibles := [],
         estadisticas := { total_libros := 0 } }) := by
  constructor
  · exact (C5_delete_resolution 0
      { libros_disponibles := [{ id := "b1", titulo := "Dune" }] }
      "x" "Hobbit" (by decide) (by decide)).2.1 (by decide)
  · have h := (C5_delete_resolution 0
      { libros_disponibles := [{ id := "b1", titulo := "Dune" }] }
      "x" "Dune" (by decide) (by decide)).2.2.1
      { id := "b1", titulo := "Dune" } [] (by decide) (by decide)
    exact h.trans (by decide)

/-- C7: pagination behavior.  With the effective filters (slot filters, or the
session-stored ones when a listing is in progress and the turn carries none —
the stored filter is what continuation pages reuse): a filtered list that fits
in one page is returned whole and the pagination state is cleared; a longer
list yields the slice `[page*10, min(page*10+10, total))`, advancing the page
and storing the filters while more items remain, and resetting the page to 0
and clearing the listing flag on the last slice.  A "next" turn without an
active listing answers that no listing is in progress; with one, it serves the
stored filter's next slice, clearing the state on an empty slice or on the
last one, advancing the page otherwise. -/
theorem C7_pagination_behavior (now : Nat) (ud : UserData) (sa : Session)
    (req : IntentRequest) (autorEff filtroEff : Option String)
    (ha : autorEff = (if !pyTruthy (getSlotValue req "autor") ∧
            !pyTruthy (getSlotValue req "filtro_tipo") ∧ sa.listando_libros then
            sa.autor else getSlotValue req "autor"))
    (hf : filtroEff = (if !pyTruthy (getSlotValue req "autor") ∧
            !pyTruthy (getSlotValue req "filtro_tipo") ∧ sa.listando_libros then
            sa.filtro else getSlotValue req "filtro_tipo")) :
    (ListarLibrosHandler.filtrar now ud autorEff filtroEff ≠ [] →
     (ListarLibrosHandler.filtrar now ud autorEff filtroEff).length ≤ LIBROS_POR_PAGINA →
     ListarLibrosHandler.handle now req sa ud =
       (ListResponse.listaCompleta
          ((ListarLibrosHandler.filtrar now ud autorEff filtroEff).map (fun l => l.titulo)),
        { sa with pagina_libros := 0, listando_libros := false })) ∧
    (LIBROS_POR_PAGINA < (ListarLibrosHandler.filtrar now ud autorEff filtroEff).length →
     min (sa.pagina_libros * LIBROS_POR_PAGINA + LIBROS_POR_PAGINA)
         (ListarLibrosHandler.filtrar now ud autorEff filtroEff).length <
       (ListarLibrosHandler.filtrar now ud autorEff filtroEff).length →
     ListarLibrosHandler.handle now req sa ud =
       (ListResponse.pagina (sa.pagina_libros * LIBROS_POR_PAGINA)
          (min (sa.pagina_libros * LIBROS_POR_PAGINA + LIBROS_POR_PAGINA)
            (ListarLibrosHandler.filtrar now ud autorEff filtroEff).length)
          (ListarLibrosHandler.filtrar now ud autorEff filtroEff).length
          ((pySlice (ListarLibrosHandler.filtrar now ud autorEff filtroEff)
             (sa.pagina_libros * LIBROS_POR_PAGINA)
             (min (sa.pagina_libros * LIBROS_POR_PAGINA + LIBROS_POR_PAGINA)
               (ListarLibrosHandler.filtrar now ud autorEff filtroEff).length)).map
            (fun l => l.titulo))
          true,
        { sa with pagina_libros := sa.pagina_libros + 1, listando_libros := true,
                  autor := autorEff, filtro := filtroEff })) ∧
    (LIBROS_POR_PAGINA < (ListarLibrosHandler.filtrar now ud autorEff filtroEff).length →
     ¬ min (sa.pagina_libros * LIBROS_POR_PAGINA + LIBROS_POR_PAGINA)
         (ListarLibrosHandler.filtrar now ud autorEff filtroEff).length <
       (ListarLibrosHandler.filtrar now ud autorEff filtroEff).length →
     ListarLibrosHandler.handle now req sa ud =
       (ListResponse.pagina (sa.pagina_libros * LIBROS_POR_PAGINA)
          (min (sa.pagina_libros * LIBROS_POR_PAGINA + LIBROS_POR_PAGINA)
            (ListarLibrosHandler.filtrar now ud autorEff filtroEff).length)
          (ListarLibrosHandler.filtrar now ud autorEff filtroEff).length
          ((pySlice (ListarLibrosHandler.filtrar now ud autorEff filtroEff)
             (sa.pagina_libros * LIBROS_POR_PAGINA)
             (min (sa.pagina_libros * LIBROS_POR_PAGINA + LIBROS_POR_PAGINA)
               (ListarLibrosHandler.filtrar now ud autorEff filtroEff).length)).map
            (fun l => l.titulo))
          false,
        { sa with pagina_libros := 0, listando_libros := false })) ∧
    (sa.listando_libros = false →
     SiguientePaginaHandler.handle now sa ud = (ListResponse.noListado, sa)) ∧
    (sa.listando_libros = true →
     pySlice (SiguientePaginaHandler.lista now ud sa)
         (sa.pagina_libros * LIBROS_POR_PAGINA)
         (min (sa.pagina_libros * LIBROS_POR_PAGINA + LIBROS_POR_PAGINA)
           (SiguientePaginaHandler.lista now ud sa).length) = [] →
     SiguientePaginaHandler.handle now sa ud =
       (ListResponse.finListado,
        { sa with pagina_libros := 0, listando_libros := false })) ∧
    (sa.listando_libros = true →
     pySlice (SiguientePaginaHandler.lista now ud sa)
         (sa.pagina_libros * LIBROS_POR_PAGINA)
         (min (sa.pagina_libros * LIBROS_POR_PAGINA + LIBROS_POR_PAGINA)
           (SiguientePaginaHandler.lista now ud sa).length) ≠ [] →
     min (sa.pagina_libros * LIBROS_POR_PAGINA + LIBROS_POR_PAGINA)
         (SiguientePaginaHandler.lista now ud sa).length <
       (SiguientePaginaHandler.lista now ud sa).length →
     SiguientePaginaHandler.handle now sa ud =
       (ListResponse.pagina (sa.pagina_libros * LIBROS_POR_PAGINA)
          (min (sa.pagina_libros * LIBROS_POR_PAGINA + LIBROS_POR_PAGINA)
            (SiguientePaginaHandler.lista now ud sa).length)
          (SiguientePaginaHandler.lista now ud sa).length
          ((pySlice (SiguientePaginaHandler.lista now ud sa)
             (sa.pagina_libros * LIBROS_POR_PAGINA)
             (min (sa.pagina_libros * LIBROS_POR_PAGINA + LIBROS_POR_PAGINA)
               (SiguientePaginaHandler.lista now ud sa).length)).map (fun l => l.titulo))
          true,
        { sa with pagina_libros := sa.pagina_libros + 1, listando_libros := true })) ∧
    (sa.listando_libros = true →
     pySlice (SiguientePaginaHandler.lista now ud sa)
         (sa.pagina_libros * LIBROS_POR_PAGINA)
         (min (sa.pagina_libros * LIBROS_POR_PAGINA + LIBROS_POR_PAGINA)
           (SiguientePaginaHandler.lista now ud sa).length) ≠ [] →
     ¬ min (sa.pagina_libros * LIBROS_POR_PAGINA + LIBROS_POR_PAGINA)
         (SiguientePaginaHandler.lista now ud sa).length <
       (SiguientePaginaHandler.lista now ud sa).length →
     SiguientePaginaHandler.handle now sa ud =
       (ListResponse.pagina (sa.pagina_libros * LIBROS_POR_PAGINA)
          (min (sa.pagina_libros * LIBROS_POR_PAGINA + LIBROS_POR_PAGINA)
            (SiguientePaginaHandler.lista now ud sa).length)
          (SiguientePaginaHandler.lista now ud sa).length
          ((pySlice (SiguientePaginaHandler.lista now ud sa)
             (sa.pagina_libros * LIBROS_POR_PAGINA)
             (min (sa.pagina_libros * LIBROS_POR_PAGINA + LIBROS_POR_PAGINA)
               (SiguientePaginaHandler.lista now ud sa).length)).map (fun l => l.titulo))
          false,
        { sa with pagina_libros := 0, listando_libros := false })) := by
  refine ⟨?_, ?_, ?_, ?_, ?_, ?_, ?_⟩
  · intro hne hsmall
    simp only [ListarLibrosHandler.handle]
    rw [← ha, ← hf]
    simp [List.isEmpty_iff, hne, hsmall]
  · intro hbig hmore
    have hne : ListarLibrosHandler.filtrar now ud autorEff filtroEff ≠ [] := by
      intro h
      rw [h] at hbig
      simp [LIBROS_POR_PAGINA] at hbig
    simp only [ListarLibrosHandler.handle]
    rw [← ha, ← hf]
    simp only [List.isEmpty_iff]
    rw [if_neg (by simpa using hne), if_neg (Nat.not_le.mpr hbig), if_pos hmore]
  · intro hbig hlast
    have hne : ListarLibrosHandler.filtrar now ud autorEff filtroEff ≠ [] := by
      intro h
      rw [h] at hbig
      simp [LIBROS_POR_PAGINA] at hbig
    simp only [ListarLibrosHandler.handle]
    rw [← ha, ← hf]
    simp only [List.isEmpty_iff]
    rw [if_neg (by simpa using hne), if_neg (Nat.not_le.mpr hbig), if_neg hlast]
  · intro h
    simp [SiguientePaginaHandler.handle, h]
  · intro h hempty
    simp only [SiguientePaginaHandler.handle, h]
    simp only [List.isEmpty_iff]
    rw [if_neg (by simp), if_pos (by simpa [pySlice] using hempty)]
  · intro h hne hmore
    simp only [SiguientePaginaHandler.handle, h]
    simp only [List.isEmpty_iff]
    rw [if_neg (by simp), if_neg (by simpa [pySlice] using hne), if_pos hmore]
  · intro h hne hlast
    simp only [SiguientePaginaHandler.handle, h]
    simp only [List.isEmpty_iff]
    rw [if_neg (by simp), if_neg (by simpa [pySlice] using hne), if_neg hlast]

/-- A 23-book collection for the pagination scenario. -/
def C7ud : UserData :=
  { libros_disponibles :=
      (List.range 23).map (fun i => { id := Nat.repr i, titulo := Nat.repr i }) }

/-- Session state after the first page of the C7 scenario. -/
def C7sa1 : Session :=
  { Session.cleared with pagina_libros := 1, listando_libros := true }

/-- Session state after the second page of the C7 scenario. -/
def C7sa2 : Session :=
  { Session.cleared with pagina_libros := 2, listando_libros := true }

/-- Witness for C7: 23 books — the first listing call returns items 1–10 with
more remaining, "next" returns 11–20, the next "next" returns 21–23 and clears
the listing state, and a further "next" without an active listing answers that
no listing is in progress. -/
theorem C7_pagination_behavior_witness :
    ListarLibrosHandler.handle 0 { name := "ListarLibrosIntent" } Session.cleared C7ud =
      (ListResponse.pagina 0 10 23 ((List.range 10).map Nat.repr) true, C7sa1) ∧
    SiguientePaginaHandler.handle 0 C7sa1 C7ud =
      (ListResponse.pagina 10 20 23 ((((List.range 23).drop 10).take 10).map Nat.repr) true,
       C7sa2) ∧
    SiguientePaginaHandler.handle 0 C7sa2 C7ud =
      (ListResponse.pagina 20 23 23 ((((List.range 23).drop 20).take 10).map Nat.repr) false,
       Session.cleared) ∧
    SiguientePaginaHandler.handle 0 Session.cleared C7ud =
      (ListResponse.noListado, Session.cleared) := by
  refine ⟨?_, ?_, ?_, ?_⟩
  · have h := (C7_pagination_behavior 0 C7ud Session.cleared
      { name := "ListarLibrosIntent" } none none (by decide) (by decide)).2.1
      (by decide) (by decide)
    exact h.trans (by decide)
  · have h := (C7_pagination_behavior 0 C7ud C7sa1
      { name := "SiguientePaginaIntent" } none none (by decide) (by decide)).2.2.2.2.2.1
      (by decide) (by decide) (by decide)
    exact h.trans (by decide)
  · have h := (C7_pagination_behavior 0 C7ud C7sa2
      { name := "SiguientePaginaIntent" } none none (by decide) (by decide)).2.2.2.2.2.2
      (by decide) (by decide) (by decide)
    exact h.trans (by decide)
  · exact (C7_pagination_behavior 0 C7ud Session.cleared
      { name := "SiguientePaginaIntent" } none none (by decide) (by decide)).2.2.2.1 rfl

/-- `prestar` does not change the book's id. -/
theorem Book.prestar_id (b : Book) : b.prestar.id = b.id := by
  unfold Book.prestar
  split <;> rfl

/-- `devolver` does not change the book's id. -/
theorem Book.devolver_id (b : Book) : b.devolver.id = b.id := by
  unfold Book.devolver
  split <;> rfl

/-- After `devolver` a book is available. -/
theorem Book.devolver_disponible (b : Book) :
    b.devolver.estado = BookStatus.disponible := by
  unfold Book.devolver
  split
  · assumption
  · rfl

/-- After `prestar` a book is on loan. -/
theorem Book.prestar_prestado (b : Book)
    (h : b.estado = BookStatus.prestado ∨ b.estado = BookStatus.disponible) :
    b.prestar.estado = BookStatus.prestado := by
  unfold Book.prestar
  split
  · assumption
  · rfl

/-- Saving a book whose id is fresh appends it. -/
theorem BookRepository.saveBooks_append (books : List Book) (b : Book)
    (h : ∀ x ∈ books, x.id ≠ b.id) :
    BookRepository.saveBooks books b = books ++ [b] := by
  induction books with
  | nil => rfl
  | cons a as ih =>
    have ha : a.id ≠ b.id := h a (List.mem_cons_self a as)
    simp only [BookRepository.saveBooks, if_neg ha, List.cons_append]
    rw [ih (fun x hx => h x (List.mem_cons_of_mem a hx))]

/-- Saving a book whose id matches the first occurrence replaces exactly that
occurrence. -/
theorem BookRepository.saveBooks_replace (l1 l2 : List Book) (b₀ b : Book)
    (h1 : ∀ y ∈ l1, y.id ≠ b.id) (h0 : b₀.id = b.id) :
    BookRepository.saveBooks (l1 ++ b₀ :: l2) b = l1 ++ b :: l2 := by
  induction l1 with
  | nil => simp [BookRepository.saveBooks, h0]
  | cons a as ih =>
    have ha : a.id ≠ b.id := h1 a (List.mem_cons_self a as)
    simp only [List.cons_append, BookRepository.saveBooks, if_neg ha, List.append_eq]
    rw [ih (fun y hy => h1 y (List.mem_cons_of_mem a hy))]

/-- Saving a loan whose id is fresh appends it. -/
theorem LoanRepository.saveLoans_append (loans : List Loan) (l : Loan)
    (h : ∀ x ∈ loans, x.id ≠ l.id) :
    LoanRepository.saveLoans loans l = loans ++ [l] := by
  induction loans with
  | nil => rfl
  | cons a as ih =>
    have ha : a.id ≠ l.id := h a (List.mem_cons_self a as)
    simp only [LoanRepository.saveLoans, if_neg ha, List.cons_append]
    rw [ih (fun x hx => h x (List.mem_cons_of_mem a hx))]

/-- Extracting an id that occurs nowhere fails. -/
theorem LoanRepository.extractLoan_none (loans : List Loan) (lid : String)
    (h : ∀ x ∈ loans, x.id ≠ lid) :
    LoanRepository.extractLoan loans lid = none := by
  induction loans with
  | nil => rfl
  | cons a as ih =>
    have ha : a.id ≠ lid := h a (List.mem_cons_self a as)
    simp only [LoanRepository.extractLoan, if_neg ha]
    rw [ih (fun x hx => h x (List.mem_cons_of_mem a hx))]

/-- Extracting the id of the appended loan, fresh for the prefix, returns that
loan and the prefix. -/
theorem LoanRepository.extractLoan_append (loans : List Loan) (l : Loan)
    (h : ∀ x ∈ loans, x.id ≠ l.id) :
    LoanRepository.extractLoan (loans ++ [l]) l.id = some (l, loans) := by
  induction loans with
  | nil => simp [LoanRepository.extractLoan]
  | cons a as ih =>
    have ha : a.id ≠ l.id := h a (List.mem_cons_self a as)
    simp only [List.cons_append, LoanRepository.extractLoan, if_neg ha, List.append_eq]
    rw [ih (fun x hx => h x (List.mem_cons_of_mem a hx))]

/-- A successful extraction splits the list at the first occurrence of the
id. -/
theorem LoanRepository.extractLoan_split (loans : List Loan) (lid : String)
    (x : Loan) (rest : List Loan)
    (h : LoanRepository.extractLoan loans lid = some (x, rest)) :
    ∃ l1 l2, loans = l1 ++ x :: l2 ∧ rest = l1 ++ l2 ∧ x.id = lid ∧
      ∀ y ∈ l1, y.id ≠ lid := by
  induction loans generalizing rest with
  | nil => simp [LoanRepository.extractLoan] at h
  | cons a as ih =>
    by_cases ha : a.id = lid
    · simp only [LoanRepository.extractLoan, if_pos ha] at h
      simp only [Option.some.injEq, Prod.mk.injEq] at h
      obtain ⟨rfl, rfl⟩ := h
      exact ⟨[], as, rfl, rfl, ha, by simp⟩
    · simp only [LoanRepository.extractLoan, if_neg ha] at h
      rcases hrec : LoanRepository.extractLoan as lid with _ | ⟨y, rest'⟩
      · rw [hrec] at h
        simp at h
      · rw [hrec] at h
        simp only [Option.some.injEq, Prod.mk.injEq] at h
        obtain ⟨rfl, hr⟩ := h
        obtain ⟨l1, l2, hsp, hrs, hid, hfr⟩ := ih rest' hrec
        refine ⟨a :: l1, l2, by simp [hsp], by simp [← hr, hrs], hid, ?_⟩
        intro y hy
        rcases List.mem_cons.mp hy with rfl | hy'
        · exact ha
        · exact hfr y hy'

/-- The loan built by `create_loan` in the C4 round trip (default borrower and
loan period). -/
def C4loan (now : Nat) (book : Book) (lid : String) : Loan :=
  { id := lid, libro_id := book.id, titulo := book.titulo, persona := "un amigo",
    fecha_prestamo := now,
    fecha_limite := now + LoanService.default_loan_days * secondsPerDay,
    fecha_devolucion := none, estado := LoanStatus.activo,
    dias_prestamo := LoanService.default_loan_days }

/-- The aggregate after the C4 `create_loan`. -/
def C4ud1 (now : Nat) (ud : UserData) (book : Book) (lid : String) : UserData :=
  BookRepository.save (LoanRepository.save_loan ud (C4loan now book lid)) book.prestar

/-- The aggregate midway through the C4 `return_loan`, after the book flip. -/
def C4udA (now : Nat) (ud : UserData) (book : Book) (lid : String) : UserData :=
  BookRepository.save (C4ud1 now ud book lid) book.prestar.devolver

/-- The aggregate after the C4 `return_loan` completes the loan. -/
def C4ud2 (now now₂ : Nat) (ud : UserData) (book : Book) (lid : String) : UserData :=
  { C4udA now ud book lid with
    prestamos_activos := ud.prestamos_activos
    historial_prestamos :=
      (C4udA now ud book lid).historial_prestamos ++ [(C4loan now book lid).devolver now₂]
    estadisticas :=
      { (C4udA now ud book lid).estadisticas with
        total_devoluciones :=
          (C4udA now ud book lid).estadisticas.total_devoluciones + 1 } }

/-- C4: on an available book (no active-list loan) with a fresh loan id and
room under the loan limit, `create_loan` succeeds; a `return_loan` on that
loan id within the due date succeeds with the on-time flag, restores the
book's status to Available, removes the loan from the active list and appends
its returned copy to the history; a further `return_loan` with the same loan
id then fails with the no-active-loan (not-found) message and changes
nothing. -/
theorem C4_loan_roundtrip (now now₂ now₃ : Nat) (ud : UserData) (book : Book)
    (bid lid : String)
    (hbid : bid ≠ "") (hlid : lid ≠ "")
    (hfound : BookRepository.find_by_id ud bid = some book)
    (hnoloan : LoanRepository.find_by_book_id now ud book.id = none)
    (hlimit : ud.prestamos_activos.length < LoanService.max_loans_per_user)
    (hfresh : ∀ l ∈ ud.prestamos_activos, l.id ≠ lid)
    (hontime : now₂ ≤ now + LoanService.default_loan_days * secondsPerDay) :
    LoanService.create_loan now ud lid none (some bid) none none =
      ((true, Msg.prestamoRegistrado book.titulo "un amigo", some (C4loan now book lid)),
       C4ud1 now ud book lid) ∧
    LoanService.return_loan now₂ (C4ud1 now ud book lid) none (some lid) =
      ((true, Msg.devolucionRegistrada book.titulo true,
        some ((C4loan now book lid).devolver now₂)),
       C4ud2 now now₂ ud book lid) ∧
    BookRepository.find_by_id (C4ud2 now now₂ ud book lid) book.id =
      some book.prestar.devolver ∧
    book.prestar.devolver.estado = BookStatus.disponible ∧
    (C4ud2 now now₂ ud book lid).prestamos_activos = ud.prestamos_activos ∧
    (∀ l ∈ (C4ud2 now now₂ ud book lid).prestamos_activos, l.id ≠ lid) ∧
    (C4ud2 now now₂ ud book lid).historial_prestamos =
      ud.historial_prestamos ++ [(C4loan now book lid).devolver now₂] ∧
    ((C4loan now book lid).devolver now₂).estado = LoanStatus.devuelto ∧
    LoanService.return_loan now₃ (C4ud2 now now₂ ud book lid) none (some lid) =
      ((false, Msg.noPrestamoActivo lid, none), C4ud2 now now₂ ud book lid) := by
  have hbookid : book.id = bid := by
    have hp := List.find?_some hfound
    simpa using hp
  obtain ⟨hpb, as, bs, hsplit, has⟩ := List.find?_eq_some.mp hfound
  have hasne : ∀ a ∈ as, a.id ≠ bid := by
    intro a ha
    have := has a ha
    simpa using this
  have hnotge : ¬ (LoanRepository.find_active_loans now ud).length ≥
      LoanService.max_loans_per_user := by
    simp only [LoanRepository.find_active_loans, List.length_map]
    exact Nat.not_le.mpr hlimit
  have hstrip : ("" : String).pyStrip = "" := by decide
  -- step 1: the create_loan equation
  have e1 : LoanService.create_loan now ud lid none (some bid) none none =
      ((true, Msg.prestamoRegistrado book.titulo "un amigo", some (C4loan now book lid)),
       C4ud1 now ud book lid) := by
    unfold LoanService.create_loan LoanService.lookupBook LoanService.create_loan_body
    simp [pyTruthy, pyStr, hbid, hfound, hnoloan, hnotge, hstrip, C4loan, C4ud1]
  -- the active list after create is the old one plus the new loan
  have hact1 : (C4ud1 now ud book lid).prestamos_activos =
      ud.prestamos_activos ++ [C4loan now book lid] := by
    show LoanRepository.saveLoans ud.prestamos_activos (C4loan now book lid) = _
    exact LoanRepository.saveLoans_append _ _ (fun x hx => hfresh x hx)
  -- the book list after create replaces the resolved book in place
  have hlib1 : (C4ud1 now ud book lid).libros_disponibles =
      as ++ book.prestar :: bs := by
    show BookRepository.saveBooks ud.libros_disponibles book.prestar = _
    rw [show ud.libros_disponibles = as ++ book :: bs from hsplit]
    exact BookRepository.saveBooks_replace as bs book book.prestar
      (fun y hy => by rw [Book.prestar_id, hbookid]; exact hasne y hy)
      (Book.prestar_id book).symm
  -- the new loan is still active (not overdue) at the return instant
  have hupd : (C4loan now book lid).actualizar_estado now₂ = C4loan now book lid := by
    simp [Loan.actualizar_estado, Loan.esta_vencido, C4loan, Nat.not_lt.mpr hontime]
  -- resolution of the return by loan id finds the new loan
  have hres : (LoanRepository.find_active_loans now₂ (C4ud1 now ud book lid)).find?
      (fun l => l.id == lid) = some (C4loan now book lid) := by
    rw [LoanRepository.find_active_loans, hact1, List.map_append, List.find?_append]
    have h1 : (ud.prestamos_activos.map (fun l => l.actualizar_estado now₂)).find?
        (fun l => l.id == lid) = none := by
      rw [List.find?_eq_none]
      intro x hx
      obtain ⟨l0, hl0, rfl⟩ := List.mem_map.mp hx
      simp [Loan.actualizar_estado_id, hfresh l0 hl0]
    rw [h1]
    simp only [List.map_cons, List.map_nil, hupd, Option.none_or]
    simp [C4loan]
  -- the book is found back (first match) in the post-create aggregate
  have hfind1 : BookRepository.find_by_id (C4ud1 now ud book lid) book.id =
      some book.prestar := by
    unfold BookRepository.find_by_id BookRepository.find_all
    rw [hlib1, List.find?_append]
    have h1 : as.find? (fun b => b.id == book.id) = none := by
      rw [List.find?_eq_none]
      intro a ha'
      simp [hbookid, hasne a ha']
    rw [h1]
    simp [Book.prestar_id]
  -- completing the loan moves it to the history
  have hext : LoanRepository.extractLoan (C4udA now ud book lid).prestamos_activos lid =
      some (C4loan now book lid, ud.prestamos_activos) := by
    have hactA : (C4udA now ud book lid).prestamos_activos =
        ud.prestamos_activos ++ [C4loan now book lid] := hact1
    rw [hactA]
    have h := LoanRepository.extractLoan_append ud.prestamos_activos
      (C4loan now book lid) (fun x hx => by simpa [C4loan] using hfresh x hx)
    simpa [C4loan] using h
  have hcomp : LoanRepository.complete_loan now₂ (C4udA now ud book lid) lid =
      (true, C4ud2 now now₂ ud book lid) := by
    unfold LoanRepository.complete_loan
    rw [hext]
    rfl
  -- step 2: the return_loan equation
  have e2 : LoanService.return_loan now₂ (C4ud1 now ud book lid) none (some lid) =
      ((true, Msg.devolucionRegistrada book.titulo true,
        some ((C4loan now book lid).devolver now₂)),
       C4ud2 now now₂ ud book lid) := by
    unfold LoanService.return_loan
    simp only [pyTruthy, pyStr, Option.getD]
    simp [hlid, hres, C4loan, Loan.esta_activo, Loan.devolver,
      Loan.fue_devuelto_a_tiempo, hontime, hfind1]
    have hA : BookRepository.save (C4ud1 now ud book lid) book.prestar.devolver =
        C4udA now ud book lid := rfl
    rw [hA, hcomp]
  -- resolution of the third return finds nothing
  have hres3 : (LoanRepository.find_active_loans now₃ (C4ud2 now now₂ ud book lid)).find?
      (fun l => l.id == lid) = none := by
    have hact2 : (C4ud2 now now₂ ud book lid).prestamos_activos = ud.prestamos_activos := rfl
    rw [LoanRepository.find_active_loans, hact2, List.find?_eq_none]
    intro x hx
    obtain ⟨l0, hl0, rfl⟩ := List.mem_map.mp hx
    simp [Loan.actualizar_estado_id, hfresh l0 hl0]
  have e3 : LoanService.return_loan now₃ (C4ud2 now now₂ ud book lid) none (some lid) =
      ((false, Msg.noPrestamoActivo lid, none), C4ud2 now now₂ ud book lid) := by
    unfold LoanService.return_loan
    simp only [pyTruthy, pyStr, Option.getD]
    simp [hlid, hres3]
  -- the book in the final aggregate is available again
  have hfind2 : BookRepository.find_by_id (C4ud2 now now₂ ud book lid) book.id =
      some book.prestar.devolver := by
    have hlib2 : (C4ud2 now now₂ ud book lid).libros_disponibles =
        as ++ book.prestar.devolver :: bs := by
      show BookRepository.saveBooks (C4ud1 now ud book lid).libros_disponibles
        book.prestar.devolver = _
      rw [hlib1]
      exact BookRepository.saveBooks_replace as bs book.prestar book.prestar.devolver
        (fun y hy => by rw [Book.devolver_id, Book.prestar_id, hbookid]; exact hasne y hy)
        (Book.devolver_id book.prestar).symm
    unfold BookRepository.find_by_id BookRepository.find_all
    rw [hlib2, List.find?_append]
    have h1 : as.find? (fun b => b.id == book.id) = none := by
      rw [List.find?_eq_none]
      intro a ha'
      simp [hbookid, hasne a ha']
    rw [h1]
    simp [Book.devolver_id, Book.prestar_id]
  refine ⟨e1, e2, hfind2, Book.devolver_disponible _, rfl, ?_, ?_, ?_, e3⟩
  · intro l hl
    exact hfresh l hl
  · show (C4udA now ud book lid).historial_prestamos ++ _ = _
    have hh : (C4udA now ud book lid).historial_prestamos = ud.historial_prestamos := rfl
    rw [hh]
  · simp [C4loan, Loan.devolver]

/-- The book of the C4 witness scenario. -/
def C4wBook : Book := { id := "b1", titulo := "Dune" }

/-- The single-book aggregate of the C4 witness scenario. -/
def C4wUd : UserData := { libros_disponibles := [C4wBook] }

/-- Witness for C4: loan "Dune", return it on time (the loan moves to the
history and the book is available again), then a second return of the same
loan id fails with the no-active-loan message. -/
theorem C4_loan_roundtrip_witness :
    LoanService.return_loan 5 (C4ud1 0 C4wUd C4wBook "PREST-1") none (some "PREST-1") =
      ((true, Msg.devolucionRegistrada "Dune" true,
        some ((C4loan 0 C4wBook "PREST-1").devolver 5)),
       C4ud2 0 5 C4wUd C4wBook "PREST-1") ∧
    LoanService.return_loan 9 (C4ud2 0 5 C4wUd C4wBook "PREST-1") none (some "PREST-1") =
      ((false, Msg.noPrestamoActivo "PREST-1", none),
       C4ud2 0 5 C4wUd C4wBook "PREST-1") := by
  have h := C4_loan_roundtrip 0 5 9 C4wUd C4wBook "b1" "PREST-1" (by decide) (by decide)
    (by decide) (by decide) (by decide) (by decide) (by decide)
  exact ⟨h.2.1, h.2.2.2.2.2.2.2.2⟩

/-- `prestar` always yields an on-loan book. -/
theorem Book.prestar_estado (b : Book) : b.prestar.estado = BookStatus.prestado := by
  unfold Book.prestar
  split
  · assumption
  · rfl

/-- `devolver` does not change the referenced book of a loan. -/
theorem Loan.devolver_libro (l : Loan) (now : Nat) :
    (l.devolver now).libro_id = l.libro_id := by
  unfold Loan.devolver
  split <;> rfl

/-- `devolver` does not change the loan id. -/
theorem Loan.devolver_loanid (l : Loan) (now : Nat) :
    (l.devolver now).id = l.id := by
  unfold Loan.devolver
  split <;> rfl

/-- A loan still active after the read-time re-derivation was left unchanged
by it. -/
theorem Loan.actualizar_active_eq (l : Loan) (now : Nat)
    (h : (l.actualizar_estado now).esta_activo = true) :
    l.actualizar_estado now = l := by
  unfold Loan.actualizar_estado at h ⊢
  split at h
  · simp [Loan.esta_activo] at h
  · next hc => rw [if_neg hc]

/-- Saving a book over a collection with pairwise-distinct ids containing a
book with the same id replaces exactly that occurrence; the other books keep
different ids. -/
theorem BookRepository.saveBooks_eq_of_nodup (books : List Book) (nb b₀ : Book)
    (hnd : (books.map Book.id).Nodup) (hb₀ : b₀ ∈ books) (hid : b₀.id = nb.id) :
    ∃ s t, books = s ++ b₀ :: t ∧
      BookRepository.saveBooks books nb = s ++ nb :: t ∧
      (∀ y ∈ s, y.id ≠ nb.id) ∧ ∀ y ∈ t, y.id ≠ nb.id := by
  obtain ⟨s, t, rfl⟩ := List.append_of_mem hb₀
  have hnd' := hnd
  rw [List.map_append, List.map_cons] at hnd'
  have hnot := (List.nodup_cons.mp (List.nodup_middle.mp hnd')).1
  have hs : ∀ y ∈ s, y.id ≠ nb.id := by
    intro y hy heq
    exact hnot (by
      rw [List.mem_append]
      left
      exact List.mem_map.mpr ⟨y, hy, heq.trans hid.symm⟩)
  have ht : ∀ y ∈ t, y.id ≠ nb.id := by
    intro y hy heq
    exact hnot (by
      rw [List.mem_append]
      right
      exact List.mem_map.mpr ⟨y, hy, heq.trans hid.symm⟩)
  exact ⟨s, t, rfl, BookRepository.saveBooks_replace s t b₀ nb hs hid, hs, ht⟩

/-- Extraction at a spliced-in loan whose id does not occur in the prefix. -/
theorem LoanRepository.extractLoan_splice (s t : List Loan) (l₀ : Loan)
    (hs : ∀ y ∈ s, y.id ≠ l₀.id) :
    LoanRepository.extractLoan (s ++ l₀ :: t) l₀.id = some (l₀, s ++ t) := by
  induction s with
  | nil => simp [LoanRepository.extractLoan]
  | cons a as ih =>
    have ha : a.id ≠ l₀.id := hs a (List.mem_cons_self a as)
    simp only [List.cons_append, LoanRepository.extractLoan, if_neg ha, List.append_eq]
    rw [ih (fun y hy => hs y (List.mem_cons_of_mem a hy))]

/-- Extraction of a loan from an active list with pairwise-distinct ids
removes exactly that loan. -/
theorem LoanRepository.extractLoan_eq_of_nodup (loans : List Loan) (l₀ : Loan)
    (hnd : (loans.map Loan.id).Nodup) (hl₀ : l₀ ∈ loans) :
    ∃ s t, loans = s ++ l₀ :: t ∧
      LoanRepository.extractLoan loans l₀.id = some (l₀, s ++ t) ∧
      (∀ y ∈ s, y.id ≠ l₀.id) ∧ ∀ y ∈ t, y.id ≠ l₀.id := by
  obtain ⟨s, t, rfl⟩ := List.append_of_mem hl₀
  have hnd' := hnd
  rw [List.map_append, List.map_cons] at hnd'
  have hnot := (List.nodup_cons.mp (List.nodup_middle.mp hnd')).1
  have hs : ∀ y ∈ s, y.id ≠ l₀.id := by
    intro y hy heq
    exact hnot (by
      rw [List.mem_append]
      left
      exact List.mem_map.mpr ⟨y, hy, heq⟩)
  have ht : ∀ y ∈ t, y.id ≠ l₀.id := by
    intro y hy heq
    exact hnot (by
      rw [List.mem_append]
      right
      exact List.mem_map.mpr ⟨y, hy, heq⟩)
  exact ⟨s, t, rfl, LoanRepository.extractLoan_splice s t l₀ hs, hs, ht⟩

/-- No two loans in the active list reference the same book. -/
def activesDistinctBooks (ud : UserData) : Prop :=
  (ud.prestamos_activos.map Loan.libro_id).Nodup

/-- The active-list loan ids are pairwise distinct. -/
def activesDistinctIds (ud : UserData) : Prop :=
  (ud.prestamos_activos.map Loan.id).Nodup

/-- The book ids of the collection are pairwise distinct (spec §3: the id is
unique within a user). -/
def booksDistinctIds (ud : UserData) : Prop :=
  (ud.libros_disponibles.map Book.id).Nodup

instance (ud : UserData) : Decidable (activesDistinctBooks ud) := by
  unfold activesDistinctBooks
  exact inferInstance

instance (ud : UserData) : Decidable (activesDistinctIds ud) := by
  unfold activesDistinctIds
  exact inferInstance

instance (ud : UserData) : Decidable (booksDistinctIds ud) := by
  unfold booksDistinctIds
  exact inferInstance

/-- `add_book` preserves the book/loan invariant when the generated id is
fresh (the contract of `IdGenerator.generate_unique_id`). -/
theorem addBook_preserves_invariant (ud : UserData) (newId : String) (now : Nat)
    (titulo autor tipo : String)
    (hinv : booksLoansInvariant ud)
    (hfreshB : ∀ b ∈ ud.libros_disponibles, b.id ≠ newId)
    (hfreshBL : ∀ l ∈ ud.prestamos_activos, l.libro_id ≠ newId) :
    booksLoansInvariant (BookService.add_book ud newId now titulo autor tipo).2 := by
  unfold BookService.add_book
  by_cases h1 : titulo.pyStrip = ""
  · simpa [h1] using hinv
  · rw [if_neg h1]
    by_cases h2 : BookRepository.exists_title ud titulo.pyStrip = true
    · simpa [h2] using hinv
    · rw [if_neg (by simpa using h2)]
      intro b hb
      have hlibros : (BookRepository.save ud
          { id := newId, titulo := titulo.pyStrip,
            autor := if autor.pyStrip = "" then "Desconocido" else autor.pyStrip,
            tipo := if tipo.pyStrip = "" then "Sin categoría" else tipo.pyStrip,
            fecha_agregado := now, estado := BookStatus.disponible,
            total_prestamos := 0 }).libros_disponibles =
          ud.libros_disponibles ++
            [{ id := newId, titulo := titulo.pyStrip,
               autor := if autor.pyStrip = "" then "Desconocido" else autor.pyStrip,
               tipo := if tipo.pyStrip = "" then "Sin categoría" else tipo.pyStrip,
               fecha_agregado := now, estado := BookStatus.disponible,
               total_prestamos := 0 }] := by
        show BookRepository.saveBooks _ _ = _
        exact BookRepository.saveBooks_append _ _ (fun x hx => hfreshB x hx)
      rw [hlibros] at hb
      rcases List.mem_append.mp hb with hb' | hb'
      · exact hinv b hb'
      · have hb'' := List.mem_singleton.mp hb'
        subst hb''
      -- the fresh book is available and no loan references its id
        constructor
        · intro hpr
          simp at hpr
        · rintro ⟨l, hl, hlid⟩
          exact absurd hlid (hfreshBL l hl)

/-- `delete_book` preserves the book/loan invariant: every branch either
leaves the aggregate unchanged or removes books, and the active list is never
touched. -/
theorem deleteBook_preserves_invariant (now : Nat) (ud : UserData)
    (book_id title : Option String)
    (hinv : booksLoansInvariant ud) :
    booksLoansInvariant (BookService.delete_book now ud book_id title).2 := by
  rcases hbook : (if pyTruthy book_id then BookRepository.find_by_id ud (pyStr book_id)
      else if pyTruthy title then
        (BookRepository.find_by_title ud (pyStr title).pyStrip).head?
      else none) with _ | b
  · simpa [BookService.delete_book, hbook] using hinv
  · rcases hloan : LoanRepository.find_by_book_id now ud b.id with _ | al
    · have hrepo : booksLoansInvariant (BookRepository.delete ud b.id).2 := by
        unfold BookRepository.delete
        by_cases hless :
            (ud.libros_disponibles.filter (fun x => x.id != b.id)).length <
              ud.libros_disponibles.length
        · rw [if_pos hless]
          intro x hx
          exact hinv x (List.mem_filter.mp hx).1
        · rw [if_neg hless]
          exact hinv
      by_cases hdel : (BookRepository.delete ud b.id).1 = true
      · simpa [BookService.delete_book, hbook, hloan, hdel] using hrepo
      · simpa [BookService.delete_book, hbook, hloan, hdel] using hrepo
    · simpa [BookService.delete_book, hbook, hloan] using hinv

/-- A uniquely resolved book in `create_loan` belongs to the collection. -/
theorem LoanService.lookupBook_mem (ud : UserData) (bt bi : Option String) (b : Book)
    (h : LoanService.lookupBook ud bt bi = BookLookup.one b) :
    b ∈ ud.libros_disponibles := by
  unfold LoanService.lookupBook at h
  by_cases h1 : pyTruthy bi = true
  · rw [if_pos h1] at h
    rcases hf : BookRepository.find_by_id ud (pyStr bi) with _ | b'
    · rw [hf] at h
      simp at h
    · rw [hf] at h
      injection h with h'
      subst h'
      exact List.mem_of_find?_eq_some hf
  · rw [if_neg h1] at h
    by_cases h2 : pyTruthy bt = true
    · rw [if_pos h2] at h
      rcases hf : BookRepository.find_by_title ud (pyStr bt).pyStrip with _ | ⟨x, xs⟩
      · rw [hf] at h
        simp at h
      · rcases xs with _ | ⟨y, ys⟩
        · rw [hf] at h
          injection h with h'
          subst h'
          have hx : x ∈ BookRepository.find_by_title ud (pyStr bt).pyStrip := by
            rw [hf]
            exact List.mem_cons_self _ _
          exact (List.mem_filter.mp hx).1
        · rw [hf] at h
          simp at h
    · rw [if_neg h2] at h
      simp at h

/-- Writing an active loan and flipping its book to on-loan preserves the
invariant (the heart of `create_loan`'s success path). -/
theorem saveLoanAndBook_preserves_invariant (ud : UserData) (book : Book) (loan : Loan)
    (hinv : booksLoansInvariant ud)
    (hmem : book ∈ ud.libros_disponibles)
    (hids : booksDistinctIds ud)
    (hlid : loan.libro_id = book.id)
    (hact : loan.estado = LoanStatus.activo)
    (hfreshL : ∀ l ∈ ud.prestamos_activos, l.id ≠ loan.id) :
    booksLoansInvariant
      (BookRepository.save (LoanRepository.save_loan ud loan) book.prestar) := by
  obtain ⟨s, t, hbooks, hsave, hsids, htids⟩ :=
    BookRepository.saveBooks_eq_of_nodup ud.libros_disponibles book.prestar book hids
      hmem (Book.prestar_id book).symm
  have hsl : LoanRepository.save_loan ud loan =
      LoanRepository.update_loan_statistics
        { ud with prestamos_activos :=
            LoanRepository.saveLoans ud.prestamos_activos loan } := by
    unfold LoanRepository.save_loan
    rw [if_pos (by simp [Loan.esta_activo, hact])]
  rw [hsl]
  have hactsEq : LoanRepository.saveLoans ud.prestamos_activos loan =
      ud.prestamos_activos ++ [loan] :=
    LoanRepository.saveLoans_append _ _ hfreshL
  intro b hb
  have hb' : b ∈ s ++ book.prestar :: t := by
    have : (BookRepository.save
        (LoanRepository.update_loan_statistics
          { ud with prestamos_activos :=
              LoanRepository.saveLoans ud.prestamos_activos loan })
        book.prestar).libros_disponibles =
        BookRepository.saveBooks ud.libros_disponibles book.prestar := rfl
    rw [this, hsave] at hb
    exact hb
  have hactsFinal : (BookRepository.save
      (LoanRepository.update_loan_statistics
        { ud with prestamos_activos :=
            LoanRepository.saveLoans ud.prestamos_activos loan })
      book.prestar).prestamos_activos = ud.prestamos_activos ++ [loan] := hactsEq
  rw [hactsFinal]
  rcases List.mem_append.mp hb' with hbs | hbct
  · -- a book before the replaced slot
    have hbmem : b ∈ ud.libros_disponibles := by
      rw [hbooks]
      exact List.mem_append.mpr (Or.inl hbs)
    have hbid : b.id ≠ book.id := by
      have := hsids b hbs
      rwa [Book.prestar_id] at this
    rw [hinv b hbmem]
    constructor
    · rintro ⟨l, hl, he⟩
      exact ⟨l, List.mem_append.mpr (Or.inl hl), he⟩
    · rintro ⟨l, hl, he⟩
      rcases List.mem_append.mp hl with hl' | hl'
      · exact ⟨l, hl', he⟩
      · have : l = loan := List.mem_singleton.mp hl'
        subst this
        rw [hlid] at he
        exact absurd he.symm hbid
  · rcases List.mem_cons.mp hbct with rfl | hbt
    · -- the freshly loaned book
      constructor
      · intro _
        refine ⟨loan, List.mem_append.mpr (Or.inr (List.mem_singleton.mpr rfl)), ?_⟩
        rw [hlid, Book.prestar_id]
      · intro _
        exact Book.prestar_estado book
    · -- a book after the replaced slot
      have hbmem : b ∈ ud.libros_disponibles := by
        rw [hbooks]
        exact List.mem_append.mpr (Or.inr (List.mem_cons_of_mem book hbt))
      have hbid : b.id ≠ book.id := by
        have := htids b hbt
        rwa [Book.prestar_id] at this
      rw [hinv b hbmem]
      constructor
      · rintro ⟨l, hl, he⟩
        exact ⟨l, List.mem_append.mpr (Or.inl hl), he⟩
      · rintro ⟨l, hl, he⟩
        rcases List.mem_append.mp hl with hl' | hl'
        · exact ⟨l, hl', he⟩
        · have : l = loan := List.mem_singleton.mp hl'
          subst this
          rw [hlid] at he
          exact absurd he.symm hbid

/-- `create_loan` preserves the invariant when the generated loan id is
fresh (the contract of `IdGenerator.generate_loan_id`) and book ids are
unique. -/
theorem createLoan_preserves_invariant (now : Nat) (ud : UserData)
    (newLoanId : String) (book_title book_id person_name : Option String)
    (loan_days : Option Nat)
    (hinv : booksLoansInvariant ud)
    (hids : booksDistinctIds ud)
    (hfreshL : ∀ l ∈ ud.prestamos_activos, l.id ≠ newLoanId) :
    booksLoansInvariant
      (LoanService.create_loan now ud newLoanId book_title book_id person_name
        loan_days).2 := by
  rcases hlk : LoanService.lookupBook ud book_title book_id with _ | b | ts
  · simpa [LoanService.create_loan, hlk] using hinv
  · have hmem : b ∈ ud.libros_disponibles := LoanService.lookupBook_mem ud _ _ b hlk
    have hbody : booksLoansInvariant
        (LoanService.create_loan_body now ud newLoanId b person_name loan_days).2 := by
      unfold LoanService.create_loan_body
      by_cases hlim : (LoanRepository.find_active_loans now ud).length ≥
          LoanService.max_loans_per_user
      · simpa [hlim] using hinv
      · rw [if_neg hlim]
        exact saveLoanAndBook_preserves_invariant ud b _ hinv hmem hids rfl rfl
          (fun l hl => hfreshL l hl)
    rcases hex : LoanRepository.find_by_book_id now ud b.id with _ | ex
    · simpa [LoanService.create_loan, hlk, hex] using hbody
    · by_cases hea : ex.esta_activo = true
      · simpa [LoanService.create_loan, hlk, hex, hea] using hinv
      · simpa [LoanService.create_loan, hlk, hex, hea] using hbody
  · simpa [LoanService.create_loan, hlk] using hinv

/-- Completing a loan keeps the invariant, provided every collection book
either keeps the invariant over the still-split active list and does not
reference the completed loan's book, or is available and is exactly that
book; the completed loan must be the only active-list loan on its book. -/
theorem completeLoan_invariant (now : Nat) (ud₁ : UserData) (l₀ : Loan)
    (p q : List Loan)
    (hext : LoanRepository.extractLoan ud₁.prestamos_activos l₀.id = some (l₀, p ++ q))
    (hbk : ∀ b ∈ ud₁.libros_disponibles,
       (b.id ≠ l₀.libro_id ∧
         (b.estado = BookStatus.prestado ↔ ∃ l ∈ p ++ l₀ :: q, l.libro_id = b.id)) ∨
       (b.estado = BookStatus.disponible ∧ b.id = l₀.libro_id))
    (hnod : l₀.libro_id ∉ (p ++ q).map Loan.libro_id) :
    booksLoansInvariant (LoanRepository.complete_loan now ud₁ l₀.id).2 := by
  unfold LoanRepository.complete_loan
  rw [hext]
  intro b hb
  rcases hbk b hb with ⟨hne, hiff⟩ | ⟨hdisp, hbid⟩
  · constructor
    · intro hpr
      obtain ⟨l, hl, he⟩ := hiff.mp hpr
      rcases List.mem_append.mp hl with hl' | hl'
      · exact ⟨l, List.mem_append.mpr (Or.inl hl'), he⟩
      · rcases List.mem_cons.mp hl' with rfl | hl''
        · exact absurd he.symm hne
        · exact ⟨l, List.mem_append.mpr (Or.inr hl''), he⟩
    · rintro ⟨l, hl, he⟩
      refine hiff.mpr ⟨l, ?_, he⟩
      rcases List.mem_append.mp hl with hl' | hl'
      · exact List.mem_append.mpr (Or.inl hl')
      · exact List.mem_append.mpr (Or.inr (List.mem_cons_of_mem _ hl'))
  · constructor
    · intro hpr
      rw [hdisp] at hpr
      exact BookStatus.noConfusion hpr
    · rintro ⟨l, hl, he⟩
      exact absurd (List.mem_map.mpr ⟨l, hl, he.trans hbid⟩) hnod

/-- `return_loan` preserves the invariant when no two active-list loans share
a book or an id. -/
theorem returnLoan_preserves_invariant (now : Nat) (ud : UserData)
    (book_title loan_id : Option String)
    (hinv : booksLoansInvariant ud)
    (hids : booksDistinctIds ud)
    (hdb : activesDistinctBooks ud)
    (hdi : activesDistinctIds ud) :
    booksLoansInvariant (LoanService.return_loan now ud book_title loan_id).2 := by
  rcases hres : (if pyTruthy loan_id then
      (LoanRepository.find_active_loans now ud).find? (fun l => l.id == pyStr loan_id)
    else if pyTruthy book_title then
      LoanRepository.find_by_title now ud (pyStr book_title).pyStrip
    else none) with _ | l'
  · simpa [LoanService.return_loan, hres] using hinv
  · have hmem' : l' ∈ LoanRepository.find_active_loans now ud := by
      by_cases h1 : pyTruthy loan_id = true
      · rw [if_pos h1] at hres
        exact List.mem_of_find?_eq_some hres
      · rw [if_neg h1] at hres
        by_cases h2 : pyTruthy book_title = true
        · rw [if_pos h2] at hres
          unfold LoanRepository.find_by_title at hres
          exact List.mem_of_find?_eq_some hres
        · rw [if_neg h2] at hres
          simp at hres
    by_cases hact : l'.esta_activo = true
    case neg => simpa [LoanService.return_loan, hres, hact] using hinv
    case pos =>
    rw [LoanRepository.find_active_loans] at hmem'
    obtain ⟨l₀, hl₀, heq⟩ := List.mem_map.mp hmem'
    have hl'eq : l' = l₀ := by
      rw [← heq]
      exact Loan.actualizar_active_eq l₀ now (by rw [heq]; exact hact)
    subst hl'eq
    obtain ⟨p, q, hacts, hext, hpids, hqids⟩ :=
      LoanRepository.extractLoan_eq_of_nodup ud.prestamos_activos l' hdi hl₀
    have hnod : l'.libro_id ∉ (p ++ q).map Loan.libro_id := by
      have hdb' := hdb
      unfold activesDistinctBooks at hdb'
      rw [hacts, List.map_append, List.map_cons] at hdb'
      rw [List.map_append]
      exact (List.nodup_cons.mp (List.nodup_middle.mp hdb')).1
    rcases hfb : BookRepository.find_by_id ud l'.libro_id with _ | bk
    · have hcomp : booksLoansInvariant (LoanRepository.complete_loan now ud l'.id).2 := by
        apply completeLoan_invariant now ud l' p q hext
        · intro b hb
          left
          have hbne : b.id ≠ l'.libro_id := by
            unfold BookRepository.find_by_id BookRepository.find_all at hfb
            have := List.find?_eq_none.mp hfb b hb
            simpa using this
          refine ⟨hbne, ?_⟩
          rw [← hacts]
          exact hinv b hb
        · exact hnod
      simpa [LoanService.return_loan, hres, hact, hfb, Loan.devolver_libro,
        Loan.devolver_loanid] using hcomp
    · have hbkmem : bk ∈ ud.libros_disponibles := by
        unfold BookRepository.find_by_id BookRepository.find_all at hfb
        exact List.mem_of_find?_eq_some hfb
      have hbkid : bk.id = l'.libro_id := by
        unfold BookRepository.find_by_id BookRepository.find_all at hfb
        have := List.find?_some hfb
        simpa using this
      obtain ⟨s, t, hbooks, hsave, hsids, htids⟩ :=
        BookRepository.saveBooks_eq_of_nodup ud.libros_disponibles bk.devolver bk hids
          hbkmem (Book.devolver_id bk).symm
      have hcomp : booksLoansInvariant
          (LoanRepository.complete_loan now (BookRepository.save ud bk.devolver) l'.id).2 := by
        refine completeLoan_invariant now (BookRepository.save ud bk.devolver) l' p q hext ?_ ?_
        · intro b hb
          have hb' : b ∈ s ++ bk.devolver :: t := by
            have hl : (BookRepository.save ud bk.devolver).libros_disponibles =
                BookRepository.saveBooks ud.libros_disponibles bk.devolver := rfl
            rw [hl, hsave] at hb
            exact hb
          rcases List.mem_append.mp hb' with hbs | hbct
          · left
            have hbmem : b ∈ ud.libros_disponibles := by
              rw [hbooks]
              exact List.mem_append.mpr (Or.inl hbs)
            have hbne : b.id ≠ l'.libro_id := by
              have := hsids b hbs
              rwa [Book.devolver_id, hbkid] at this
            refine ⟨hbne, ?_⟩
            rw [← hacts]
            exact hinv b hbmem
          · rcases List.mem_cons.mp hbct with rfl | hbt
            · right
              exact ⟨Book.devolver_disponible bk, by rw [Book.devolver_id, hbkid]⟩
            · left
              have hbmem : b ∈ ud.libros_disponibles := by
                rw [hbooks]
                exact List.mem_append.mpr (Or.inr (List.mem_cons_of_mem bk hbt))
              have hbne : b.id ≠ l'.libro_id := by
                have := htids b hbt
                rwa [Book.devolver_id, hbkid] at this
              refine ⟨hbne, ?_⟩
              rw [← hacts]
              exact hinv b hbmem
        · exact hnod
      simpa [LoanService.return_loan, hres, hact, hfb, Loan.devolver_libro,
        Loan.devolver_loanid] using hcomp

/-- The book of the C1 counterexample: "Dune", on loan. -/
def C1ceBook : Book :=
  { id := "b1", titulo := "Dune", autor := "A", tipo := "T",
    fecha_agregado := 0, estado := BookStatus.prestado, total_prestamos := 1 }

/-- The overdue active loan of the C1 counterexample (due at 5). -/
def C1ceLoan : Loan :=
  { id := "l1", libro_id := "b1", titulo := "Dune", persona := "Ana",
    fecha_prestamo := 0, fecha_limite := 5, fecha_devolucion := none,
    estado := LoanStatus.activo, dias_prestamo := 7 }

/-- The C1 counterexample state: "Dune" on loan, its loan overdue at
time 10. -/
def C1ceUd : UserData :=
  { libros_disponibles := [C1ceBook], prestamos_activos := [C1ceLoan] }

/-- Counterexample to C1 as stated.  From a state satisfying the invariant —
one book on loan whose active loan is overdue at time 10 — `create_loan`
completes successfully (the overdue loan no longer counts as active, so the
already-loaned guard passes and the book gains a second active-list loan) and
the invariant still holds; but the completed `return_loan` of the new loan
then flips the book to `DISPONIBLE` while the old loan still sits in the
active-loans list: the invariant is violated after a completed operation. -/
theorem C1_invariant_counterexample :
    booksLoansInvariant C1ceUd ∧
    (LoanService.create_loan 10 C1ceUd "l2" (some "Dune") none none none).1.1 = true ∧
    booksLoansInvariant
      (LoanService.create_loan 10 C1ceUd "l2" (some "Dune") none none none).2 ∧
    (LoanService.return_loan 10
        (LoanService.create_loan 10 C1ceUd "l2" (some "Dune") none none none).2
        none (some "l2")).1.1 = true ∧
    ¬ booksLoansInvariant
        (LoanService.return_loan 10
          (LoanService.create_loan 10 C1ceUd "l2" (some "Dune") none none none).2
          none (some "l2")).2 := by
  decide

/-- C1 amended: with fresh generated ids (the id-generator contract) and
per-user-unique book ids (spec §3), the invariant — a book is `PRESTADO` iff
some active-list loan references it — is preserved by `add_book`,
`create_loan` and `delete_book` in every branch; `return_loan` preserves it
provided additionally no two active-list loans share a book or a loan id (a
condition that `create_loan` can break by re-loaning an overdue book, which
is what the counterexample exploits). -/
theorem C1_invariant_preservation (now : Nat) (ud : UserData)
    (newId newLoanId titulo autor tipo : String)
    (book_title book_id person_name del_id del_title ret_title ret_id : Option String)
    (loan_days : Option Nat)
    (hinv : booksLoansInvariant ud)
    (hids : booksDistinctIds ud)
    (hfreshB : ∀ b ∈ ud.libros_disponibles, b.id ≠ newId)
    (hfreshBL : ∀ l ∈ ud.prestamos_activos, l.libro_id ≠ newId)
    (hfreshL : ∀ l ∈ ud.prestamos_activos, l.id ≠ newLoanId) :
    booksLoansInvariant (BookService.add_book ud newId now titulo autor tipo).2 ∧
    booksLoansInvariant
      (LoanService.create_loan now ud newLoanId book_title book_id person_name
        loan_days).2 ∧
    booksLoansInvariant (BookService.delete_book now ud del_id del_title).2 ∧
    (activesDistinctBooks ud → activesDistinctIds ud →
      booksLoansInvariant (LoanService.return_loan now ud ret_title ret_id).2) :=
  ⟨addBook_preserves_invariant ud newId now titulo autor tipo hinv hfreshB hfreshBL,
   createLoan_preserves_invariant now ud newLoanId book_title book_id person_name
     loan_days hinv hids hfreshL,
   deleteBook_preserves_invariant now ud del_id del_title hinv,
   fun hdb hdi => returnLoan_preserves_invariant now ud ret_title ret_id hinv hids hdb hdi⟩

/-- The aggregate of the C1 witness: one available book, one active loan on
it. -/
def C1wUd : UserData :=
  { libros_disponibles :=
      [{ id := "b1", titulo := "Dune", estado := BookStatus.prestado },
       { id := "b2", titulo := "Hobbit" }]
    prestamos_activos := [{ id := "l1", libro_id := "b1", titulo := "Dune",
                            fecha_limite := 100 }] }

/-- Witness for C1's amended theorem: all four operations applied to a
two-book aggregate with one active loan keep the invariant. -/
theorem C1_invariant_preservation_witness :
    booksLoansInvariant (BookService.add_book C1wUd "b3" 0 "Emma" "" "").2 ∧
    booksLoansInvariant
      (LoanService.create_loan 0 C1wUd "l2" (some "Hobbit") none none none).2 ∧
    booksLoansInvariant (BookService.delete_book 0 C1wUd none (some "Hobbit")).2 ∧
    booksLoansInvariant (LoanService.return_loan 0 C1wUd (some "Dune") none).2 := by
  have h := C1_invariant_preservation 0 C1wUd "b3" "l2" "Emma" "" ""
    (some "Hobbit") none none none (some "Hobbit") (some "Dune") none none
    (by decide) (by decide) (by decide) (by decide) (by decide)
  exact ⟨h.1, h.2.1, h.2.2.1, h.2.2.2 (by decide) (by decide)⟩
